import Mathlib

/-!
Verification of the hardware-monitor telemetry engine
(ComfyUI_HardwareMonitor).

Shallow embedding of:
- `src/general/transfer_speed.py`  (class CTransferSpeedInfo)
- `src/general/shared_gpu_memory.py` (class CSharedGPUMemoryInfo)
- `src/general/gpu.py` (class CGPUInfo)
- `src/server/monitor.py` (route handlers)

Floats and timestamps are modelled as rationals, Python ints as integers.
Calls to `time.time()` made inside one lock-held block are modelled as a
single instant passed in as a parameter.  Exceptions raised by external
libraries are modelled with `Except`/oracle parameters.  State-mutating
methods become explicit state-passing functions.
-/

namespace HWMon

/-! ## Transfer-speed cache (`src/general/transfer_speed.py`) -/

/-- `MAX_MEASUREMENT_RETRIES = 2` in transfer_speed.py. -/
def MAX_MEASUREMENT_RETRIES : ℕ := 2

/-- `FAILURE_COOLDOWN = 30.0` in transfer_speed.py. -/
def TS_FAILURE_COOLDOWN : ℚ := 30

/-- Mutable state of a `CTransferSpeedInfo` instance (the fields touched by
`get_speeds` and its helpers). -/
structure TSState where
  switchTransferSpeed : Bool
  lastVramSpeed : ℚ
  lastSharedSpeed : ℚ
  lastMeasurementTime : ℚ
  consecutiveFailures : ℕ
  lastFailureTime : ℚ
  inCooldown : Bool
  measuring : Bool
  deriving DecidableEq, Repr

/-- Fresh instance state as set in `CTransferSpeedInfo.__init__`. -/
def tsInit : TSState :=
  { switchTransferSpeed := false
    lastVramSpeed := -1
    lastSharedSpeed := -1
    lastMeasurementTime := 0
    consecutiveFailures := 0
    lastFailureTime := 0
    inCooldown := false
    measuring := false }

/-- `CTransferSpeedInfo._should_measure` (transfer_speed.py lines 64-77).
Takes the current time, may clear the cooldown as a side effect, and
returns whether a measurement should run now. -/
def tsShouldMeasure (interval : ℚ) (s : TSState) (now : ℚ) : Bool × TSState :=
  if s.inCooldown then
    if now - s.lastFailureTime ≥ TS_FAILURE_COOLDOWN then
      let s2 := { s with inCooldown := false, consecutiveFailures := 0 }
      (decide (now - s2.lastMeasurementTime ≥ interval), s2)
    else
      (false, s)
  else
    (decide (now - s.lastMeasurementTime ≥ interval), s)

/-- `CTransferSpeedInfo._record_failure` (transfer_speed.py lines 79-86). -/
def tsRecordFailure (s : TSState) (now : ℚ) : TSState :=
  let s2 := { s with consecutiveFailures := s.consecutiveFailures + 1,
                     lastFailureTime := now }
  if s2.consecutiveFailures ≥ MAX_MEASUREMENT_RETRIES then
    { s2 with inCooldown := true }
  else
    s2

/-- `CTransferSpeedInfo._record_success` (transfer_speed.py lines 88-91). -/
def tsRecordSuccess (s : TSState) : TSState :=
  { s with consecutiveFailures := 0, inCooldown := false }

/-- Outcome of the first lock-held block of `get_speeds` (lines 210-225):
either the call returns cached values right away, or it sets `_measuring`
and proceeds to run the measurement on the calling thread. -/
inductive TSEnterOutcome where
  | cached (vram sharedSpeed : ℚ)
  | measureStarted
  deriving DecidableEq, Repr

/-- First lock-held block of `get_speeds` (transfer_speed.py lines 210-225),
reached only when `switchTransferSpeed` is true: return cached values if a
measurement is in progress or `_should_measure` says no; otherwise set
`_measuring = True` and fall through to the measurement. -/
def tsEnter (interval : ℚ) (s : TSState) (now : ℚ) : TSEnterOutcome × TSState :=
  if s.measuring then
    (.cached s.lastVramSpeed s.lastSharedSpeed, s)
  else
    let (ok, s2) := tsShouldMeasure interval s now
    if ok then
      (.measureStarted, { s2 with measuring := true })
    else
      (.cached s2.lastVramSpeed s2.lastSharedSpeed, s2)

/-- Second lock-held block of `get_speeds` (transfer_speed.py lines 227-254),
run after `measure_vram_speed()` and `measure_shared_gpu_memory_speed()`
returned `vram` and `sharedSpeed` on the calling thread (each is a positive
speed on success and `-1.0` on failure, per those methods).  Updates the
cache only with positive results, stamps the measurement time, records
failure/success, and returns the cached values. -/
def tsFinish (s : TSState) (vram sharedSpeed : ℚ) (now : ℚ) : (ℚ × ℚ) × TSState :=
  let anyFailed : Bool := vram < 0 || sharedSpeed < 0
  let s2 := if vram > 0 then { s with lastVramSpeed := vram } else s
  let s3 := if sharedSpeed > 0 then { s2 with lastSharedSpeed := sharedSpeed } else s2
  let s4 := { s3 with lastMeasurementTime := now, measuring := false }
  let s5 := if anyFailed then tsRecordFailure s4 now else tsRecordSuccess s4
  ((s5.lastVramSpeed, s5.lastSharedSpeed), s5)

/-- Result of one `get_speeds` call.  `ranProbeOnCaller` records whether the
call executed the measurement bodies (`measure_vram_speed` /
`measure_shared_gpu_memory_speed`) synchronously on the calling thread. -/
structure TSPollResult where
  vram_speed : ℚ
  shared_gpu_speed : ℚ
  ranProbeOnCaller : Bool
  deriving DecidableEq, Repr

/-- `CTransferSpeedInfo.get_speeds` (transfer_speed.py lines 194-265).
`now` is the time seen by `_should_measure`; `vram`/`sharedSpeed` are the
values the two measurement methods would return if executed on this call
(positive on success, `-1.0` on failure); `now2` is the time at the second
lock-held block. -/
def get_speeds (interval : ℚ) (s : TSState) (now vram sharedSpeed now2 : ℚ) :
    TSPollResult × TSState :=
  if s.switchTransferSpeed = false then
    (⟨-1, -1, false⟩, s)
  else
    match tsEnter interval s now with
    | (.cached v sh, s2) => (⟨v, sh, false⟩, s2)
    | (.measureStarted, s2) =>
        let ((v, sh), s3) := tsFinish s2 vram sharedSpeed now2
        (⟨v, sh, true⟩, s3)

/-! ## Shared-GPU-memory cache (`src/general/shared_gpu_memory.py`) -/

/-- `MAX_CONSECUTIVE_FAILURES = 3` in shared_gpu_memory.py. -/
def MAX_CONSECUTIVE_FAILURES : ℕ := 3

/-- `FAILURE_COOLDOWN = 60.0` in shared_gpu_memory.py. -/
def SGM_FAILURE_COOLDOWN : ℚ := 60

/-- `self._update_interval = 2.0` in `CSharedGPUMemoryInfo.__init__`. -/
def SGM_UPDATE_INTERVAL : ℚ := 2

/-- Mutable state of a `CSharedGPUMemoryInfo` instance.  `hasPending` models
`self._pending_future is not None`. -/
structure SGMState where
  switchSharedGPUMemory : Bool
  sharedUsed : ℤ
  sharedTotal : ℤ
  sharedPercent : ℚ
  lastUpdateTime : ℚ
  queryInProgress : Bool
  hasPending : Bool
  consecutiveFailures : ℕ
  lastFailureTime : ℚ
  inCooldown : Bool
  deriving DecidableEq, Repr

/-- Fresh instance state as set in `CSharedGPUMemoryInfo.__init__`. -/
def sgmInit : SGMState :=
  { switchSharedGPUMemory := false
    sharedUsed := -1
    sharedTotal := -1
    sharedPercent := -1
    lastUpdateTime := 0
    queryInProgress := false
    hasPending := false
    consecutiveFailures := 0
    lastFailureTime := 0
    inCooldown := false }

/-- `CSharedGPUMemoryInfo._should_query` (shared_gpu_memory.py lines 96-109). -/
def sgmShouldQuery (s : SGMState) (now : ℚ) : Bool × SGMState :=
  if s.inCooldown then
    if now - s.lastFailureTime ≥ SGM_FAILURE_COOLDOWN then
      let s2 := { s with inCooldown := false, consecutiveFailures := 0 }
      (decide (now - s2.lastUpdateTime ≥ SGM_UPDATE_INTERVAL), s2)
    else
      (false, s)
  else
    (decide (now - s.lastUpdateTime ≥ SGM_UPDATE_INTERVAL), s)

/-- `CSharedGPUMemoryInfo._record_failure` (shared_gpu_memory.py lines 111-118). -/
def sgmRecordFailure (s : SGMState) (now : ℚ) : SGMState :=
  let s2 := { s with consecutiveFailures := s.consecutiveFailures + 1,
                     lastFailureTime := now }
  if s2.consecutiveFailures ≥ MAX_CONSECUTIVE_FAILURES then
    { s2 with inCooldown := true }
  else
    s2

/-- `CSharedGPUMemoryInfo._record_success` (shared_gpu_memory.py lines 120-123). -/
def sgmRecordSuccess (s : SGMState) : SGMState :=
  { s with consecutiveFailures := 0, inCooldown := false }

/-- The record returned by `get_shared_gpu_memory_info`. -/
structure SGMResult where
  shared_gpu_memory_used : ℤ
  shared_gpu_memory_total : ℤ
  shared_gpu_memory_percent : ℚ
  deriving DecidableEq, Repr

/-- The fixed sentinel record returned when the feature is off or the
platform is not Windows. -/
def sgmSentinel : SGMResult := ⟨-1, -1, -1⟩

/-- Consumption of a completed background query
(shared_gpu_memory.py lines 173-202).  `outcome` is what
`self._pending_future.result(timeout=0)` produces: `.ok (used, total)` when
`_perform_query` returned normally (`used = -1` when the performance-counter
query failed, `total = -1` when the total-RAM query failed), `.error ()`
when retrieving the result raises.  The `finally` clause clears the pending
future and the in-progress flag in both cases. -/
def sgmConsume (s : SGMState) (outcome : Except Unit (ℤ × ℤ)) (now : ℚ) : SGMState :=
  let s5 :=
    match outcome with
    | .ok (sharedUsed, sharedTotal) =>
        let s2 :=
          if sharedUsed ≥ 0 then
            sgmRecordSuccess { s with sharedUsed := sharedUsed }
          else
            sgmRecordFailure s now
        let s3 := if sharedTotal > 0 then { s2 with sharedTotal := sharedTotal } else s2
        let s4 :=
          if s3.sharedTotal > 0 ∧ s3.sharedUsed ≥ 0 then
            { s3 with sharedPercent := (s3.sharedUsed : ℚ) / (s3.sharedTotal : ℚ) * 100 }
          else
            { s3 with sharedPercent := 0 }
        { s4 with lastUpdateTime := now }
    | .error _ => sgmRecordFailure s now
  { s5 with hasPending := false, queryInProgress := false }

/-- The dispatch step of `get_shared_gpu_memory_info`
(shared_gpu_memory.py lines 204-212): when no query is in progress and
`_should_query` agrees, mark a query in progress and submit the probe to
the executor (`submitOk` tells whether the submission raises); a failed
submission clears the flag and records a failure.  The boolean result is
`true` exactly when a probe was dispatched. -/
def sgmDispatchStep (s2 : SGMState) (now : ℚ) (submitOk : Bool) :
    SGMState × Bool :=
  if s2.queryInProgress = false then
    let (ok, s2a) := sgmShouldQuery s2 now
    if ok then
      if submitOk then
        ({ s2a with queryInProgress := true, hasPending := true }, true)
      else
        (sgmRecordFailure { s2a with queryInProgress := false } now, false)
    else
      (s2a, false)
  else
    (s2, false)

/-- `CSharedGPUMemoryInfo.get_shared_gpu_memory_info`
(shared_gpu_memory.py lines 145-219).

Oracle inputs to one call: `isWindows` (the module-level `IS_WINDOWS`),
`futureDone` (whether `self._pending_future.done()` — read only when a
future is pending), `outcome` (what retrieving the completed future yields),
`now` (the instant of this lock-held block), `submitOk` (whether
`self._executor.submit` succeeds).  The third component of the result is
`true` exactly when this call dispatched a new background probe. -/
def get_shared_gpu_memory_info (isWindows : Bool) (s : SGMState)
    (futureDone : Bool) (outcome : Except Unit (ℤ × ℤ)) (now : ℚ)
    (submitOk : Bool) : SGMResult × SGMState × Bool :=
  if s.switchSharedGPUMemory = false then
    (sgmSentinel, s, false)
  else if isWindows = false then
    (sgmSentinel, s, false)
  else
    let s2 := if s.hasPending && futureDone then sgmConsume s outcome now else s
    let (s3, dispatched) := sgmDispatchStep s2 now submitOk
    (⟨s3.sharedUsed, s3.sharedTotal, s3.sharedPercent⟩, s3, dispatched)

/-! ## GPU aggregator (`src/general/gpu.py`) -/

/-- `MAX_INIT_RETRIES = 3` in gpu.py. -/
def MAX_INIT_RETRIES : ℕ := 3

/-- `INITIAL_RETRY_DELAY = 1.0` in gpu.py. -/
def INITIAL_RETRY_DELAY : ℚ := 1

/-- Outcome of one attempt of the library-initialization loop body in
`_init_pynvml_with_retry` / `_init_jtop_with_retry`: the attempt succeeds,
raises `ImportError` (module not installed), or raises some other
exception (e.g. `nvmlInit()` / `jtop().start()` failing). -/
inductive InitAttempt where
  | ok
  | importError
  | otherError
  deriving DecidableEq, Repr

/-- Observable outcome of a `_init_*_with_retry` run: whether the backend
was marked loaded, how many loop iterations executed an attempt, and the
list of delays passed to `time.sleep` (in order). -/
structure InitRetryResult where
  loaded : Bool
  attemptsMade : ℕ
  sleeps : List ℚ
  deriving DecidableEq, Repr

/-- The retry loop of `_init_pynvml_with_retry` / `_init_jtop_with_retry`
(gpu.py lines 76-126), abstracted over the per-attempt outcomes.
`remaining` counts loop iterations still allowed (starts at
`MAX_INIT_RETRIES`); on success or `ImportError` the method returns at
once; on another exception it sleeps `delay` and doubles it, but only when
this was not the final attempt. -/
def initRetryGo (outcomes : ℕ → InitAttempt) :
    ℕ → ℕ → ℚ → List ℚ → InitRetryResult
  | 0, attempt, _, sleeps => ⟨false, attempt, sleeps⟩
  | remaining + 1, attempt, delay, sleeps =>
    match outcomes attempt with
    | .ok => ⟨true, attempt + 1, sleeps⟩
    | .importError => ⟨false, attempt + 1, sleeps⟩
    | .otherError =>
        if remaining = 0 then
          initRetryGo outcomes remaining (attempt + 1) (delay * 2) sleeps
        else
          initRetryGo outcomes remaining (attempt + 1) (delay * 2) (sleeps ++ [delay])

/-- A full `_init_*_with_retry` run over a given sequence of per-attempt
outcomes. -/
def initWithRetry (outcomes : ℕ → InitAttempt) : InitRetryResult :=
  initRetryGo outcomes MAX_INIT_RETRIES 0 INITIAL_RETRY_DELAY []

/-- A discovered GPU entry (`self.gpus.append({'index': ..., 'name': ...})`,
gpu.py lines 156-159). -/
structure GpuEntry where
  index : ℕ
  name : String
  deriving DecidableEq, Repr

/-- State of a `CGPUInfo` instance.  The provider handle fields `pynvml` /
`jtopInstance` are modelled as `Option ℕ` (`none` = never assigned, `some
id` = holding the object assigned at init-attempt `id`). -/
structure GPUState where
  cuda : Bool
  pynvmlLoaded : Bool
  jtopLoaded : Bool
  cudaAvailable : Bool
  torchDevice : String
  cudaDevice : String
  cudaDevicesFound : ℕ
  switchGPU : Bool
  switchVRAM : Bool
  switchTemperature : Bool
  gpus : List GpuEntry
  gpusUtilization : List Bool
  gpusVRAM : List Bool
  gpusTemperature : List Bool
  anygpuLoaded : Bool
  pynvml : Option ℕ
  jtopInstance : Option ℕ
  closed : Bool
  deriving DecidableEq, Repr

/-- Class-level defaults of `CGPUInfo` (gpu.py lines 42-60) before
`__init__` runs its initialization. -/
def gpuInitialState : GPUState :=
  { cuda := false
    pynvmlLoaded := false
    jtopLoaded := false
    cudaAvailable := false
    torchDevice := "cpu"
    cudaDevice := "cpu"
    cudaDevicesFound := 0
    switchGPU := true
    switchVRAM := true
    switchTemperature := true
    gpus := []
    gpusUtilization := []
    gpusVRAM := []
    gpusTemperature := []
    anygpuLoaded := false
    pynvml := none
    jtopInstance := none
    closed := false }

/-- Environment for initialization: which backend gets selected, how each
construction attempt goes, what the torch / CUDA probes report, and how
many devices with which names the provider enumerates. -/
structure GpuEnv where
  isJetson : Bool
  attempts : ℕ → InitAttempt
  torchDeviceName : Option String
  deviceCount : ℕ
  deviceName : ℕ → String
  cudaIsAvailable : Bool

/-- The state effect of the `_init_*_with_retry` loop (gpu.py lines 76-126)
on a `CGPUInfo` instance: on a successful attempt the handle is assigned
and the loaded flag set; on `ImportError` nothing is assigned; on another
exception the handle was already assigned (for pynvml the module is stored
before `nvmlInit()`; for jtop the constructed instance before `start()`)
and the loop retries. -/
def initLibGo (env : GpuEnv) : ℕ → ℕ → GPUState → GPUState
  | 0, _, s => s
  | remaining + 1, attempt, s =>
    match env.attempts attempt with
    | .ok =>
        if env.isJetson then
          { s with jtopInstance := some attempt, jtopLoaded := true }
        else
          { s with pynvml := some attempt, pynvmlLoaded := true }
    | .importError => s
    | .otherError =>
        let s2 :=
          if env.isJetson then { s with jtopInstance := some attempt }
          else { s with pynvml := some attempt }
        initLibGo env remaining (attempt + 1) s2

/-- `CGPUInfo._init_gpu_library` (gpu.py lines 69-74): dispatch to the
jtop or pynvml retry loop according to Jetson detection. -/
def init_gpu_library (env : GpuEnv) (s : GPUState) : GPUState :=
  initLibGo env MAX_INIT_RETRIES 0 s

/-- `CGPUInfo.deviceGetCount` (gpu.py lines 258-265). -/
def deviceGetCount (env : GpuEnv) (s : GPUState) : ℕ :=
  if s.pynvmlLoaded then env.deviceCount
  else if s.jtopLoaded then 1
  else 0

/-- `CGPUInfo.deviceGetName` (gpu.py lines 275-301) as seen through the
environment: the provider-reported name for a device index (pynvml path;
the jtop path reads the single GPU name from the jtop instance, modelled
by the same oracle). -/
def deviceNameAt (env : GpuEnv) (s : GPUState) (i : ℕ) : String :=
  if s.pynvmlLoaded then env.deviceName i
  else if s.jtopLoaded then env.deviceName i
  else ""

/-- `_setup_gpu_devices`, line 130: `self.anygpuLoaded = self.pynvmlLoaded
or self.jtopLoaded`. -/
def setup_stage1 (s : GPUState) : GPUState :=
  { s with anygpuLoaded := s.pynvmlLoaded || s.jtopLoaded }

/-- `_setup_gpu_devices`, lines 132-135: pick the torch device name,
keeping the old value if the call raises. -/
def setup_stage2 (env : GpuEnv) (s : GPUState) : GPUState :=
  match env.torchDeviceName with
  | some name => { s with torchDevice := name }
  | none => s

/-- `_setup_gpu_devices`, lines 137-141: when pynvml is loaded but reports
no device, disable GPU monitoring. -/
def setup_stage3 (env : GpuEnv) (s : GPUState) : GPUState :=
  if s.pynvmlLoaded && !s.jtopLoaded && decide (deviceGetCount env s = 0) then
    { s with anygpuLoaded := false, pynvmlLoaded := false, jtopLoaded := false }
  else s

/-- `_setup_gpu_devices`, lines 143-171: with a loaded backend that reports
devices, record the count, append each device (index, name) to the lists,
append default `True` per-device switches, and set the cuda flag. -/
def setup_stage4 (env : GpuEnv) (s : GPUState) : GPUState :=
  if s.anygpuLoaded then
    if 0 < deviceGetCount env s then
      let n := deviceGetCount env s
      { s with
        cudaDevicesFound := n
        gpus := s.gpus ++ (List.range n).map (fun i => ⟨i, deviceNameAt env s i⟩)
        gpusUtilization := s.gpusUtilization ++ List.replicate n true
        gpusVRAM := s.gpusVRAM ++ List.replicate n true
        gpusTemperature := s.gpusTemperature ++ List.replicate n true
        cuda := true }
    else s
  else s

/-- `_setup_gpu_devices`, lines 173-174: derive `cudaDevice` from the torch
device and query CUDA availability. -/
def setup_stage5 (env : GpuEnv) (s : GPUState) : GPUState :=
  { s with
    cudaDevice := if s.torchDevice = "cpu" then "cpu" else "cuda"
    cudaAvailable := env.cudaIsAvailable }

/-- `CGPUInfo._setup_gpu_devices` (gpu.py lines 128-177): the five blocks
in program order. -/
def setup_gpu_devices (env : GpuEnv) (s : GPUState) : GPUState :=
  setup_stage5 env (setup_stage4 env (setup_stage3 env (setup_stage2 env
    (setup_stage1 s))))

/-- The fields of a `CGPUInfo` state that determine device enumeration:
loaded flags, `anygpuLoaded`, the device list, the three per-device switch
arrays, and the device count. -/
def trackedT (s : GPUState) :
    Bool × Bool × Bool × List GpuEntry × List Bool × List Bool × List Bool × ℕ :=
  (s.pynvmlLoaded, s.jtopLoaded, s.anygpuLoaded, s.gpus, s.gpusUtilization,
   s.gpusVRAM, s.gpusTemperature, s.cudaDevicesFound)

/-- `CGPUInfo.is_operational` (gpu.py lines 374-376). -/
def is_operational (s : GPUState) : Bool :=
  s.anygpuLoaded && !s.closed

/-- The initialization performed by `CGPUInfo.__init__` (gpu.py lines
62-67) starting from the class-level defaults. -/
def freshInit (env : GpuEnv) : GPUState :=
  setup_gpu_devices env (init_gpu_library env gpuInitialState)

/-- `CGPUInfo.reinitialize` (gpu.py lines 378-409): reset the listed
fields, re-run library init and device setup, and return
`is_operational`. -/
def reinitializeGPU (env : GpuEnv) (s : GPUState) : Bool × GPUState :=
  let s2 := { s with
    closed := false
    pynvmlLoaded := false
    jtopLoaded := false
    anygpuLoaded := false
    gpus := []
    gpusUtilization := []
    gpusVRAM := []
    gpusTemperature := []
    cudaDevicesFound := 0
    cuda := false }
  let s3 := init_gpu_library env s2
  let s4 := setup_gpu_devices env s3
  (is_operational s4, s4)

/-! ### `CGPUInfo.getStatus` (gpu.py lines 183-256) -/

/-- `{'total': ..., 'used': ...}` as returned by `deviceGetMemoryInfo`. -/
structure MemInfo where
  total : ℤ
  used : ℤ
  deriving DecidableEq, Repr

/-- Per-call read oracle: what each provider read returns for a device
index, or that it raises (`.error ()`). -/
structure ReadEnv where
  utilization : ℕ → Except Unit ℤ
  memoryInfo : ℕ → Except Unit MemInfo
  temperature : ℕ → Except Unit ℤ

/-- One per-device record appended by `getStatus`. -/
structure GpuRecord where
  gpu_utilization : ℤ
  gpu_temperature : ℤ
  vram_total : ℤ
  vram_used : ℤ
  vram_used_percent : ℚ
  deriving DecidableEq, Repr

/-- The GPU-utilization read of the `getStatus` loop body (gpu.py lines
215-222): attempted only when `switchGPU` and the device's switch are both
set; an exception yields the sentinel and turns `switchGPU` off. -/
def utilRead (env : ReadEnv) (s : GPUState) (i : ℕ) : ℤ × GPUState :=
  if s.switchGPU && s.gpusUtilization.getD i false then
    match env.utilization i with
    | .ok v => (v, s)
    | .error _ => (-1, { s with switchGPU := false })
  else (-1, s)

/-- The VRAM read of the `getStatus` loop body (gpu.py lines 224-235):
yields `(used, total, percent)`; the percentage is computed only when the
reported total is nonzero; an exception yields sentinels and turns
`switchVRAM` off. -/
def vramRead (env : ReadEnv) (s : GPUState) (i : ℕ) : (ℤ × ℤ × ℚ) × GPUState :=
  if s.switchVRAM && s.gpusVRAM.getD i false then
    match env.memoryInfo i with
    | .ok m =>
        let p : ℚ := if m.total ≠ 0 then (m.used : ℚ) / (m.total : ℚ) * 100 else -1
        ((m.used, m.total, p), s)
    | .error _ => ((-1, -1, -1), { s with switchVRAM := false })
  else ((-1, -1, -1), s)

/-- The temperature read of the `getStatus` loop body (gpu.py lines
237-243). -/
def tempRead (env : ReadEnv) (s : GPUState) (i : ℕ) : ℤ × GPUState :=
  if s.switchTemperature && s.gpusTemperature.getD i false then
    match env.temperature i with
    | .ok v => (v, s)
    | .error _ => (-1, { s with switchTemperature := false })
  else (-1, s)

/-- The loop body of `getStatus` for one device index (gpu.py lines
206-251): the three reads in program order, threading the
(switch-flipping) state. -/
def readDevice (env : ReadEnv) (s : GPUState) (i : ℕ) : GpuRecord × GPUState :=
  let (u, s1) := utilRead env s i
  let ((used, total, p), s2) := vramRead env s1 i
  let (t, s3) := tempRead env s2 i
  (⟨u, t, total, used, p⟩, s3)

/-- The device loop of `getStatus`, threading the (switch-flipping) state
through successive devices. -/
def getStatusGo (env : ReadEnv) (s : GPUState) : List ℕ → List GpuRecord × GPUState
  | [] => ([], s)
  | i :: rest =>
      let (r, s2) := readDevice env s i
      let (rs, s3) := getStatusGo env s2 rest
      (r :: rs, s3)

/-- The value returned by `CGPUInfo.getStatus`. -/
structure GpuStatus where
  device_type : String
  gpus : List GpuRecord
  deriving DecidableEq, Repr

/-- `CGPUInfo.getStatus` (gpu.py lines 183-256). -/
def getStatus (env : ReadEnv) (s : GPUState) : GpuStatus × GPUState :=
  if s.cudaDevice = "cpu" then
    (⟨"cpu", [⟨-1, -1, -1, -1, -1⟩]⟩, s)
  else if s.anygpuLoaded && s.cuda && s.cudaAvailable then
    let (rs, s2) := getStatusGo env s (List.range s.cudaDevicesFound)
    (⟨s.cudaDevice, rs⟩, s2)
  else
    (⟨s.cudaDevice, []⟩, s)

/-! ## Route handlers (`src/server/monitor.py`) -/

/-- A JSON value arriving in a request body. -/
inductive JVal where
  | jnull
  | jbool (b : Bool)
  | jnum (q : ℚ)
  | jstr (s : String)
  deriving DecidableEq, Repr

/-- `isinstance(x, (int, float))` — note a Python `bool` is an `int`, so a
boolean passes this check too. -/
def isNumberJ : JVal → Bool
  | .jnum _ => true
  | .jbool _ => true
  | _ => false

/-- `isinstance(x, bool)`. -/
def isBoolJ : JVal → Bool
  | .jbool _ => true
  | _ => false

/-- Numeric value of a JSON value under Python semantics (`True == 1`). -/
def numValJ : JVal → ℚ
  | .jnum q => q
  | .jbool b => if b then 1 else 0
  | _ => 0

/-- Boolean payload of a JSON value (only used after `isinstance(x, bool)`
succeeded). -/
def boolValJ : JVal → Bool
  | .jbool b => b
  | _ => false

/-- HTTP status of a handler response: 200 or 400. -/
inductive Resp where
  | ok
  | err
  deriving DecidableEq, Repr

/-- The monitor state mutated by the `PATCH /crystools/monitor` handler:
the sampling rate, a count of `startMonitor()` invocations, and the four
feature switches it forwards to `cmonitor.hardwareInfo`. -/
structure MonState where
  rate : ℚ
  monitorStarts : ℕ
  switchCPU : Bool
  switchRAM : Bool
  switchTransferSpeed : Bool
  switchSharedGPUMemory : Bool
  deriving DecidableEq, Repr

/-- Body of a `PATCH /crystools/monitor` request: each field is absent
(`none`) or present with a JSON value. -/
structure SettingsReq where
  rate : Option JVal
  switchCPU : Option JVal
  switchRAM : Option JVal
  switchTransferSpeed : Option JVal
  switchSharedGPUMemory : Option JVal
  deriving DecidableEq, Repr

/-- The `rate` block of `newSettings` (monitor.py lines 12-21): skipped if
the key is absent or `None`; raises (`none`) when the value is not a
number; otherwise stores the rate, additionally starting the monitor when
the rate transitions from 0 to positive. -/
def stageRate (v? : Option JVal) (st : MonState) : Option MonState :=
  match v? with
  | none => some st
  | some .jnull => some st
  | some v =>
      if isNumberJ v then
        let r := numValJ v
        if st.rate = 0 ∧ 0 < r then
          some { st with rate := r, monitorStarts := st.monitorStarts + 1 }
        else
          some { st with rate := r }
      else
        none

/-- The `switchCPU` block of `newSettings` (monitor.py lines 24-29). -/
def stageSwitchCPU (v? : Option JVal) (st : MonState) : Option MonState :=
  match v? with
  | none => some st
  | some .jnull => some st
  | some v => if isBoolJ v then some { st with switchCPU := boolValJ v } else none

/-- The `switchRAM` block of `newSettings` (monitor.py lines 31-36). -/
def stageSwitchRAM (v? : Option JVal) (st : MonState) : Option MonState :=
  match v? with
  | none => some st
  | some .jnull => some st
  | some v => if isBoolJ v then some { st with switchRAM := boolValJ v } else none

/-- The `switchTransferSpeed` block of `newSettings`
(monitor.py lines 38-43). -/
def stageSwitchTS (v? : Option JVal) (st : MonState) : Option MonState :=
  match v? with
  | none => some st
  | some .jnull => some st
  | some v =>
      if isBoolJ v then some { st with switchTransferSpeed := boolValJ v } else none

/-- The `switchSharedGPUMemory` block of `newSettings`
(monitor.py lines 45-50). -/
def stageSwitchSGM (v? : Option JVal) (st : MonState) : Option MonState :=
  match v? with
  | none => some st
  | some .jnull => some st
  | some v =>
      if isBoolJ v then some { st with switchSharedGPUMemory := boolValJ v } else none

/-- `newSettings` (`PATCH /crystools/monitor`, monitor.py lines 6-55): the
five blocks run in order inside one `try`; the first block that raises
aborts the handler with a 400 response, keeping every mutation the earlier
blocks already performed. -/
def newSettings (req : SettingsReq) (st : MonState) : Resp × MonState :=
  match stageRate req.rate st with
  | none => (.err, st)
  | some st1 =>
    match stageSwitchCPU req.switchCPU st1 with
    | none => (.err, st1)
    | some st2 =>
      match stageSwitchRAM req.switchRAM st2 with
      | none => (.err, st2)
      | some st3 =>
        match stageSwitchTS req.switchTransferSpeed st3 with
        | none => (.err, st3)
        | some st4 =>
          match stageSwitchSGM req.switchSharedGPUMemory st4 with
          | none => (.err, st4)
          | some st5 => (.ok, st5)

/-- The three per-device switch arrays of `cmonitor.hardwareInfo.GPUInfo`
as mutated by the `PATCH /crystools/monitor/GPU/{index}` handler. -/
structure GpuArrays where
  gpusUtilization : List Bool
  gpusVRAM : List Bool
  gpusTemperature : List Bool
  deriving DecidableEq, Repr

/-- Body and path parameter of a `PATCH /crystools/monitor/GPU/{index}`
request (`index` already parsed by `int(...)`). -/
structure GpuPatchReq where
  index : ℤ
  utilization : Option JVal
  vram : Option JVal
  temperature : Option JVal
  deriving DecidableEq, Repr

/-- Python list item assignment `l[i] = b`: negative indices count from the
end; an index out of `[-len, len)` raises `IndexError` (`none`).  A failed
assignment mutates nothing. -/
def pyListSet (l : List Bool) (i : ℤ) (b : Bool) : Option (List Bool) :=
  let j : ℤ := if i < 0 then i + l.length else i
  if 0 ≤ j ∧ j < l.length then some (l.set j.toNat b) else none

/-- The `utilization` block of the per-device PATCH handler
(monitor.py lines 104-108): type-check, then Python list assignment at the
given index. -/
def stageUtil (i : ℤ) (v? : Option JVal) (a : GpuArrays) : Option GpuArrays :=
  match v? with
  | none => some a
  | some .jnull => some a
  | some v =>
      if isBoolJ v then
        match pyListSet a.gpusUtilization i (boolValJ v) with
        | some l => some { a with gpusUtilization := l }
        | none => none
      else
        none

/-- The `vram` block of the per-device PATCH handler
(monitor.py lines 110-114). -/
def stageVram (i : ℤ) (v? : Option JVal) (a : GpuArrays) : Option GpuArrays :=
  match v? with
  | none => some a
  | some .jnull => some a
  | some v =>
      if isBoolJ v then
        match pyListSet a.gpusVRAM i (boolValJ v) with
        | some l => some { a with gpusVRAM := l }
        | none => none
      else
        none

/-- The `temperature` block of the per-device PATCH handler
(monitor.py lines 116-120). -/
def stageTemp (i : ℤ) (v? : Option JVal) (a : GpuArrays) : Option GpuArrays :=
  match v? with
  | none => some a
  | some .jnull => some a
  | some v =>
      if isBoolJ v then
        match pyListSet a.gpusTemperature i (boolValJ v) with
        | some l => some { a with gpusTemperature := l }
        | none => none
      else
        none

/-- The `PATCH /crystools/monitor/GPU/{index}` handler
(monitor.py lines 99-125): three blocks in order inside one `try`; a type
error or `IndexError` aborts with a 400, keeping earlier mutations. -/
def gpuIndexPatch (req : GpuPatchReq) (a : GpuArrays) : Resp × GpuArrays :=
  match stageUtil req.index req.utilization a with
  | none => (.err, a)
  | some a1 =>
    match stageVram req.index req.vram a1 with
    | none => (.err, a1)
    | some a2 =>
      match stageTemp req.index req.temperature a2 with
      | none => (.err, a2)
      | some a3 => (.ok, a3)

/-! ## Auxiliary definitions used by the statements below -/

/-- Repeated entries into `get_speeds` (its first lock-held block) at the
given times, counting how many of them start a measurement. -/
def tsEnterFold (interval : ℚ) (s : TSState) : List ℚ → ℕ × TSState
  | [] => (0, s)
  | t :: rest =>
      match tsEnter interval s t with
      | (.measureStarted, s2) =>
          let (k, s3) := tsEnterFold interval s2 rest
          (k + 1, s3)
      | (.cached _ _, s2) => tsEnterFold interval s2 rest

/-- Oracle inputs of one `get_shared_gpu_memory_info` call. -/
structure SGMCallIn where
  futureDone : Bool
  outcome : Except Unit (ℤ × ℤ)
  now : ℚ
  submitOk : Bool

/-- Repeated `get_shared_gpu_memory_info` calls, counting how many of them
dispatch a background probe. -/
def sgmPollFold (isWindows : Bool) (s : SGMState) : List SGMCallIn → ℕ × SGMState
  | [] => (0, s)
  | c :: rest =>
      let r := get_shared_gpu_memory_info isWindows s c.futureDone c.outcome c.now c.submitOk
      let (k, s3) := sgmPollFold isWindows r.2.1 rest
      (if r.2.2 then k + 1 else k, s3)

/-- Repeated `getStatus` calls with one read oracle per call. -/
def getStatusIter (s : GPUState) : List ReadEnv → List GpuStatus × GPUState
  | [] => ([], s)
  | env :: rest =>
      let (st, s2) := getStatus env s
      let (sts, s3) := getStatusIter s2 rest
      (st :: sts, s3)

/-- Well-typedness of the `rate` field: absent, `None`, or a Python number
(`int`/`float`, which includes `bool`). -/
def validRate : Option JVal → Bool
  | none => true
  | some .jnull => true
  | some v => isNumberJ v

/-- Well-typedness of a boolean switch field: absent, `None`, or a
Python `bool`. -/
def validBoolField : Option JVal → Bool
  | none => true
  | some .jnull => true
  | some v => isBoolJ v

/-- Whether Python list assignment at integer index `i` into a list of
length `n` succeeds (`-n ≤ i < n`). -/
def pyIdxOK (n : ℕ) (i : ℤ) : Bool :=
  decide (0 ≤ (if i < 0 then i + n else i) ∧ (if i < 0 then i + n else i) < n)

/-- Acceptance of one per-device PATCH field against an array of length
`n`: absent or `None` is skipped; otherwise the value must be a `bool` and
the index must be assignable. -/
def validIdxField (n : ℕ) (i : ℤ) : Option JVal → Bool
  | none => true
  | some .jnull => true
  | some v => isBoolJ v && pyIdxOK n i

/-! ### Concrete inputs used in counterexamples and witnesses -/

/-- A transfer-speed cache with the feature switch on and otherwise fresh
state. -/
def exTSActive : TSState := { tsInit with switchTransferSpeed := true }

/-- A shared-GPU-memory cache with the feature on and one probe in
flight. -/
def exSGMPending : SGMState :=
  { sgmInit with switchSharedGPUMemory := true, queryInProgress := true,
                 hasPending := true }

/-- An environment where the first pynvml attempt succeeds and one GPU is
enumerated. -/
def exEnvOk : GpuEnv :=
  { isJetson := false
    attempts := fun _ => .ok
    torchDeviceName := some "cuda:0"
    deviceCount := 1
    deviceName := fun _ => "GPU0"
    cudaIsAvailable := true }

/-- Init-attempt outcomes of the backoff scenario: two construction
failures, then success. -/
def exScenarioAttempts : ℕ → InitAttempt :=
  fun k => if k < 2 then .otherError else .ok

/-- An operational aggregator state whose utilization metric has been
auto-disabled and which holds a stale jtop handle. -/
def exGPUStale : GPUState :=
  { freshInit exEnvOk with switchGPU := false, jtopInstance := some 99 }

/-- A read oracle where every read succeeds (memory: 4 GiB used of
10 GiB). -/
def exReadEnvOk : ReadEnv :=
  { utilization := fun _ => .ok 50
    memoryInfo := fun _ => .ok ⟨10737418240, 4294967296⟩
    temperature := fun _ => .ok 65 }

/-- A read oracle whose utilization read raises and whose other reads
succeed. -/
def exReadEnvUtilFail : ReadEnv :=
  { utilization := fun _ => .error ()
    memoryInfo := fun _ => .ok ⟨100, 40⟩
    temperature := fun _ => .ok 65 }

/-- A monitor state with a nonzero rate and all switches off. -/
def exMonState : MonState :=
  { rate := 2, monitorStarts := 0, switchCPU := false, switchRAM := false,
    switchTransferSpeed := false, switchSharedGPUMemory := false }

/-- A settings request with a valid `rate` followed by a malformed
`switchCPU`. -/
def exReqBadCPU : SettingsReq :=
  { rate := some (.jnum 5), switchCPU := some (.jstr "yes"), switchRAM := none,
    switchTransferSpeed := none, switchSharedGPUMemory := none }

/-- Per-device switch arrays for two devices, all true. -/
def exArrays2 : GpuArrays :=
  { gpusUtilization := [true, true], gpusVRAM := [true, true],
    gpusTemperature := [true, true] }

/-- A per-device PATCH request using the out-of-documented-bounds index
`-1`. -/
def exReqNegIdx : GpuPatchReq :=
  { index := -1, utilization := some (.jbool false), vram := none,
    temperature := none }

/-! ## Helper lemmas -/

theorem utilRead_state (env : ReadEnv) (s : GPUState) (i : ℕ) :
    (utilRead env s i).2 = s ∨ (utilRead env s i).2 = { s with switchGPU := false } := by
  unfold utilRead
  split
  · cases h : env.utilization i <;> simp
  · simp

theorem vramRead_state (env : ReadEnv) (s : GPUState) (i : ℕ) :
    (vramRead env s i).2 = s ∨ (vramRead env s i).2 = { s with switchVRAM := false } := by
  unfold vramRead
  split
  · cases h : env.memoryInfo i <;> simp
  · simp

theorem tempRead_state (env : ReadEnv) (s : GPUState) (i : ℕ) :
    (tempRead env s i).2 = s ∨ (tempRead env s i).2 = { s with switchTemperature := false } := by
  unfold tempRead
  split
  · cases h : env.temperature i <;> simp
  · simp

/-! ## Claim theorems -/

/-- C8: for both background-probe caches, when the owning feature switch is
false — or, for the shared-GPU-memory probe, when the platform is not
Windows — the poll operation returns exactly the fixed sentinel record,
dispatches no probe, and leaves the cache state untouched. -/
theorem C8_disabled_switch_sentinel :
    (∀ (interval : ℚ) (s : TSState) (now vram sh now2 : ℚ),
        s.switchTransferSpeed = false →
        get_speeds interval s now vram sh now2 = (⟨-1, -1, false⟩, s)) ∧
    (∀ (isWindows : Bool) (s : SGMState) (fd : Bool)
        (oc : Except Unit (ℤ × ℤ)) (now : ℚ) (sub : Bool),
        s.switchSharedGPUMemory = false ∨ isWindows = false →
        get_shared_gpu_memory_info isWindows s fd oc now sub = (sgmSentinel, s, false)) := by
  constructor
  · intro interval s now vram sh now2 h
    simp [get_speeds, h]
  · intro isWindows s fd oc now sub h
    rcases h with h | h
    · simp [get_shared_gpu_memory_info, h]
    · cases hsw : s.switchSharedGPUMemory
      · simp [get_shared_gpu_memory_info, hsw]
      · simp [get_shared_gpu_memory_info, hsw, h]

/-- Closed instance of `C8_disabled_switch_sentinel`. -/
theorem C8_disabled_switch_sentinel_witness :
    get_speeds 5 tsInit 0 0 0 0 = (⟨-1, -1, false⟩, tsInit) ∧
    get_shared_gpu_memory_info false sgmInit false (.error ()) 0 false =
      (sgmSentinel, sgmInit, false) :=
  ⟨C8_disabled_switch_sentinel.1 5 tsInit 0 0 0 0 rfl,
   C8_disabled_switch_sentinel.2 false sgmInit false (.error ()) 0 false (Or.inr rfl)⟩

/-- C9: in the `getStatus` loop body, when the VRAM read is attempted,
`vram_used_percent` is `used/total*100` whenever the reported total is
nonzero, and the sentinel `-1` when the total is `0` or the read raises,
so the division is always guarded. -/
theorem C9_vram_percent_guard :
    ∀ (env : ReadEnv) (s : GPUState) (i : ℕ),
      s.switchVRAM = true → s.gpusVRAM.getD i false = true →
      (∀ m : MemInfo, env.memoryInfo i = .ok m →
        (m.total ≠ 0 →
          (readDevice env s i).1.vram_used_percent = (m.used : ℚ) / (m.total : ℚ) * 100) ∧
        (m.total = 0 → (readDevice env s i).1.vram_used_percent = -1)) ∧
      (env.memoryInfo i = .error () →
        (readDevice env s i).1.vram_used_percent = -1) := by
  intro env s i hsv hgv
  rcases hu : utilRead env s i with ⟨u, s1⟩
  have hs1 : (utilRead env s i).2 = s1 := by rw [hu]
  have hs1v : s1.switchVRAM = true := by
    rcases utilRead_state env s i with h | h <;> rw [hs1] at h <;> rw [h] <;> exact hsv
  have hs1g : s1.gpusVRAM.getD i false = true := by
    rcases utilRead_state env s i with h | h <;> rw [hs1] at h <;> rw [h] <;> exact hgv
  have hs1g' : s1.gpusVRAM[i]?.getD false = true := by
    simpa [List.getD] using hs1g
  constructor
  · intro m hm
    have hv : vramRead env s1 i =
        ((m.used, m.total, if m.total ≠ 0 then (m.used : ℚ) / (m.total : ℚ) * 100 else -1), s1) := by
      simp [vramRead, hs1v, hs1g', hm]
    constructor
    · intro hTot
      rcases ht : tempRead env s1 i with ⟨t, s3⟩
      simp [readDevice, hu, hv, ht, hTot]
    · intro hTot
      rcases ht : tempRead env s1 i with ⟨t, s3⟩
      simp [readDevice, hu, hv, ht, hTot]
  · intro hm
    have hv : vramRead env s1 i = ((-1, -1, -1), { s1 with switchVRAM := false }) := by
      simp [vramRead, hs1v, hs1g', hm]
    rcases ht : tempRead env { s1 with switchVRAM := false } i with ⟨t, s3⟩
    simp [readDevice, hu, hv, ht]

/-- Closed instance of `C9_vram_percent_guard`: 4 GiB used of 10 GiB gives
exactly 40 %, and a zero total gives the sentinel. -/
theorem C9_vram_percent_guard_witness :
    gpuInitialState.switchVRAM = true ∧
    (readDevice exReadEnvOk { gpuInitialState with gpusVRAM := [true] } 0).1.vram_used_percent = 40 ∧
    (readDevice ⟨fun _ => .ok 0, fun _ => .ok ⟨0, 7⟩, fun _ => .ok 0⟩
        { gpuInitialState with gpusVRAM := [true] } 0).1.vram_used_percent = -1 := by
  refine ⟨rfl, ?_, ?_⟩
  · have h := ((C9_vram_percent_guard exReadEnvOk
      { gpuInitialState with gpusVRAM := [true] } 0 rfl rfl).1
      ⟨10737418240, 4294967296⟩ rfl).1 (by decide)
    rw [h]
    norm_num
  · exact ((C9_vram_percent_guard ⟨fun _ => .ok 0, fun _ => .ok ⟨0, 7⟩, fun _ => .ok 0⟩
      { gpuInitialState with gpusVRAM := [true] } 0 rfl rfl).1 ⟨0, 7⟩ rfl).2 rfl

/-- C10: backend initialization attempts construction at most 3 times; the
recorded sleeps are 1.0s before the second attempt and 2.0s before the
third (delay doubling); the loop ends early exactly on success or
`ImportError`, success marks the backend loaded, and `ImportError` leaves
it unloaded; every earlier attempt ended in a retryable failure. -/
theorem C10_init_retry_backoff :
    ∀ o : ℕ → InitAttempt,
      1 ≤ (initWithRetry o).attemptsMade ∧
      (initWithRetry o).attemptsMade ≤ 3 ∧
      (initWithRetry o).sleeps = [(1 : ℚ), 2].take ((initWithRetry o).attemptsMade - 1) ∧
      ((initWithRetry o).loaded = true ↔ o ((initWithRetry o).attemptsMade - 1) = .ok) ∧
      (o ((initWithRetry o).attemptsMade - 1) = .importError →
        (initWithRetry o).loaded = false) ∧
      ((initWithRetry o).attemptsMade < 3 →
        o ((initWithRetry o).attemptsMade - 1) ≠ .otherError) ∧
      (∀ j, j < (initWithRetry o).attemptsMade - 1 → o j = .otherError) := by
  intro o
  rcases h0 : o 0 <;> rcases h1 : o 1 <;> rcases h2 : o 2 <;>
    simp [initWithRetry, initRetryGo, MAX_INIT_RETRIES, INITIAL_RETRY_DELAY,
      h0, h1, h2] <;>
    (intro j hj; interval_cases j <;> simp_all)

/-- Closed instance of `C10_init_retry_backoff` on the fail-fail-succeed
scenario: three attempts, sleeps `[1.0, 2.0]`, backend loaded. -/
theorem C10_init_retry_backoff_witness :
    initWithRetry exScenarioAttempts = ⟨true, 3, [1, 2]⟩ ∧
    (initWithRetry exScenarioAttempts).sleeps =
      [(1 : ℚ), 2].take ((initWithRetry exScenarioAttempts).attemptsMade - 1) :=
  ⟨by simp [initWithRetry, initRetryGo, MAX_INIT_RETRIES, INITIAL_RETRY_DELAY,
      exScenarioAttempts],
   (C10_init_retry_backoff exScenarioAttempts).2.2.1⟩

/-- C3: failure accounting of both caches — every recorded failure
increments the consecutive-failure counter and stamps the failure time;
reaching the threshold (2 for transfer-speed, 3 for shared-GPU-memory)
sets the cooldown flag; while the cooldown window (30 s / 60 s) has not
elapsed the poll operation dispatches no probe; once it has elapsed the
interval check clears the flag and resets the counter; a recorded success
resets the counter and clears the cooldown. -/
theorem C3_cooldown_breaker :
    (∀ (s : TSState) (now : ℚ),
        (tsRecordFailure s now).consecutiveFailures = s.consecutiveFailures + 1 ∧
        (tsRecordFailure s now).lastFailureTime = now ∧
        (2 ≤ s.consecutiveFailures + 1 → (tsRecordFailure s now).inCooldown = true) ∧
        (s.consecutiveFailures + 1 < 2 →
          (tsRecordFailure s now).inCooldown = s.inCooldown)) ∧
    (∀ (interval : ℚ) (s : TSState) (now vram sh now2 : ℚ),
        s.inCooldown = true → now - s.lastFailureTime < 30 →
        (get_speeds interval s now vram sh now2).1.ranProbeOnCaller = false) ∧
    (∀ (interval : ℚ) (s : TSState) (now : ℚ),
        s.inCooldown = true → 30 ≤ now - s.lastFailureTime →
        (tsShouldMeasure interval s now).2.inCooldown = false ∧
        (tsShouldMeasure interval s now).2.consecutiveFailures = 0) ∧
    (∀ s : TSState,
        (tsRecordSuccess s).consecutiveFailures = 0 ∧
        (tsRecordSuccess s).inCooldown = false) ∧
    (∀ (s : SGMState) (now : ℚ),
        (sgmRecordFailure s now).consecutiveFailures = s.consecutiveFailures + 1 ∧
        (sgmRecordFailure s now).lastFailureTime = now ∧
        (3 ≤ s.consecutiveFailures + 1 → (sgmRecordFailure s now).inCooldown = true) ∧
        (s.consecutiveFailures + 1 < 3 →
          (sgmRecordFailure s now).inCooldown = s.inCooldown)) ∧
    (∀ (isWindows : Bool) (s : SGMState) (fd : Bool)
        (oc : Except Unit (ℤ × ℤ)) (now : ℚ) (sub : Bool),
        (s.hasPending = false ∨ fd = false) →
        s.inCooldown = true → now - s.lastFailureTime < 60 →
        (get_shared_gpu_memory_info isWindows s fd oc now sub).2.2 = false) ∧
    (∀ (s : SGMState) (now : ℚ),
        s.inCooldown = true → 60 ≤ now - s.lastFailureTime →
        (sgmShouldQuery s now).2.inCooldown = false ∧
        (sgmShouldQuery s now).2.consecutiveFailures = 0) ∧
    (∀ s : SGMState,
        (sgmRecordSuccess s).consecutiveFailures = 0 ∧
        (sgmRecordSuccess s).inCooldown = false) := by
  refine ⟨?_, ?_, ?_, ?_, ?_, ?_, ?_, ?_⟩
  · intro s now
    refine ⟨?_, ?_, ?_, ?_⟩ <;>
      simp [tsRecordFailure, MAX_MEASUREMENT_RETRIES] <;>
      split_ifs with h <;> simp_all
  · intro interval s now vram sh now2 hc hlt
    have hsm : tsShouldMeasure interval s now = (false, s) := by
      simp [tsShouldMeasure, hc, TS_FAILURE_COOLDOWN, not_le.mpr hlt]
    cases hsw : s.switchTransferSpeed
    · simp [get_speeds, hsw]
    · cases hm : s.measuring
      · simp [get_speeds, hsw, tsEnter, hm, hsm]
      · simp [get_speeds, hsw, tsEnter, hm]
  · intro interval s now hc hge
    simp [tsShouldMeasure, hc, TS_FAILURE_COOLDOWN, hge]
  · intro s
    simp [tsRecordSuccess]
  · intro s now
    refine ⟨?_, ?_, ?_, ?_⟩ <;>
      simp [sgmRecordFailure, MAX_CONSECUTIVE_FAILURES] <;>
      split_ifs with h <;> simp_all
  · intro isWin s fd oc now sub hnp hc hlt
    cases hsw : s.switchSharedGPUMemory
    · simp [get_shared_gpu_memory_info, hsw]
    · cases hw : isWin
      · simp [get_shared_gpu_memory_info, hsw, hw]
      · have hskip : (s.hasPending && fd) = false := by
          rcases hnp with h | h <;> simp [h]
        have hsq : sgmShouldQuery s now = (false, s) := by
          simp [sgmShouldQuery, hc, SGM_FAILURE_COOLDOWN, not_le.mpr hlt]
        cases hq : s.queryInProgress
        · simp [get_shared_gpu_memory_info, sgmDispatchStep, hsw, hw, hskip, hq, hsq]
        · simp [get_shared_gpu_memory_info, sgmDispatchStep, hsw, hw, hskip, hq]
  · intro s now hc hge
    simp [sgmShouldQuery, hc, SGM_FAILURE_COOLDOWN, hge]
  · intro s
    simp [sgmRecordSuccess]

/-- Closed instance of `C3_cooldown_breaker`. -/
theorem C3_cooldown_breaker_witness :
    (tsRecordFailure { tsInit with consecutiveFailures := 1 } 5).consecutiveFailures =
      { tsInit with consecutiveFailures := 1 }.consecutiveFailures + 1 ∧
    (get_speeds 5 { exTSActive with inCooldown := true, lastFailureTime := 100 }
      110 1 1 110).1.ranProbeOnCaller = false ∧
    (tsShouldMeasure 5 { tsInit with inCooldown := true, lastFailureTime := 0 }
      40).2.consecutiveFailures = 0 ∧
    (get_shared_gpu_memory_info true
      { sgmInit with switchSharedGPUMemory := true, inCooldown := true,
                     lastFailureTime := 100 }
      false (.error ()) 110 true).2.2 = false :=
  ⟨(C3_cooldown_breaker.1 _ 5).1,
   C3_cooldown_breaker.2.1 5 _ 110 1 1 110 rfl (by norm_num),
   (C3_cooldown_breaker.2.2.1 5 _ 40 rfl (by norm_num)).2,
   C3_cooldown_breaker.2.2.2.2.2.1 true _ false (.error ()) 110 true
     (Or.inl rfl) rfl (by norm_num)⟩

theorem tsEnter_measuring (interval : ℚ) (s : TSState) (t : ℚ)
    (h : s.measuring = true) :
    tsEnter interval s t = (.cached s.lastVramSpeed s.lastSharedSpeed, s) := by
  simp [tsEnter, h]

theorem tsEnterFold_measuring (interval : ℚ) (s : TSState) (times : List ℚ)
    (h : s.measuring = true) :
    tsEnterFold interval s times = (0, s) := by
  induction times with
  | nil => rfl
  | cons t rest ih => simp [tsEnterFold, tsEnter_measuring interval s t h, ih]

theorem tsEnter_started_measuring (interval : ℚ) (s : TSState) (t : ℚ)
    (h : (tsEnter interval s t).1 = .measureStarted) :
    (tsEnter interval s t).2.measuring = true := by
  unfold tsEnter at *
  cases hm : s.measuring
  · simp [hm] at h ⊢
    rcases hsm : tsShouldMeasure interval s t with ⟨ok, s2⟩
    simp [hsm] at h ⊢
    cases ok
    · simp at h
    · simp
  · simp [hm] at h

theorem sgm_poll_inflight (isWindows : Bool) (s : SGMState) (fd : Bool)
    (oc : Except Unit (ℤ × ℤ)) (now : ℚ) (sub : Bool)
    (hq : s.queryInProgress = true) (hnp : s.hasPending = false ∨ fd = false) :
    (get_shared_gpu_memory_info isWindows s fd oc now sub).2 = (s, false) := by
  have hskip : (s.hasPending && fd) = false := by
    rcases hnp with h | h <;> simp [h]
  cases hsw : s.switchSharedGPUMemory
  · simp [get_shared_gpu_memory_info, hsw]
  · cases hw : isWindows
    · simp [get_shared_gpu_memory_info, hsw, hw]
    · simp [get_shared_gpu_memory_info, sgmDispatchStep, hsw, hw, hskip, hq]

theorem sgmPollFold_inflight (isWindows : Bool) (s : SGMState)
    (calls : List SGMCallIn) (hq : s.queryInProgress = true)
    (hnd : ∀ c ∈ calls, c.futureDone = false) :
    sgmPollFold isWindows s calls = (0, s) := by
  induction calls with
  | nil => rfl
  | cons c rest ih =>
      have h1 := sgm_poll_inflight isWindows s c.futureDone c.outcome c.now
        c.submitOk hq (Or.inr (hnd c (by simp)))
      simp [sgmPollFold, h1, ih (fun c' hc' => hnd c' (by simp [hc']))]

theorem sgmDispatchStep_flags (s2 : SGMState) (now : ℚ) (sub : Bool)
    (h : (sgmDispatchStep s2 now sub).2 = true) :
    (sgmDispatchStep s2 now sub).1.queryInProgress = true ∧
    (sgmDispatchStep s2 now sub).1.hasPending = true := by
  unfold sgmDispatchStep at *
  cases hq : s2.queryInProgress
  · rcases hsq : sgmShouldQuery s2 now with ⟨ok, s2a⟩
    simp [hq, hsq] at h ⊢
    cases ok
    · simp at h
    · cases hsub : sub
      · simp [hsub] at h
      · simp [hsub]
  · simp [hq] at h

theorem sgm_dispatch_sets_flags (isWindows : Bool) (s : SGMState) (fd : Bool)
    (oc : Except Unit (ℤ × ℤ)) (now : ℚ) (sub : Bool)
    (h : (get_shared_gpu_memory_info isWindows s fd oc now sub).2.2 = true) :
    (get_shared_gpu_memory_info isWindows s fd oc now sub).2.1.queryInProgress = true ∧
    (get_shared_gpu_memory_info isWindows s fd oc now sub).2.1.hasPending = true := by
  cases hsw : s.switchSharedGPUMemory
  · simp [get_shared_gpu_memory_info, hsw] at h
  · cases hw : isWindows
    · simp [get_shared_gpu_memory_info, hsw, hw] at h
    · subst hw
      cases hpf : s.hasPending && fd
      · rcases hds : sgmDispatchStep s now sub with ⟨s3, d⟩
        have hmain : get_shared_gpu_memory_info true s fd oc now sub =
            (⟨s3.sharedUsed, s3.sharedTotal, s3.sharedPercent⟩, s3, d) := by
          simp [get_shared_gpu_memory_info, hsw, hpf, hds]
        rw [hmain] at h ⊢
        simp only at h
        have hflags := sgmDispatchStep_flags s now sub (by rw [hds]; exact h)
        rw [hds] at hflags
        exact hflags
      · rcases hds : sgmDispatchStep (sgmConsume s oc now) now sub with ⟨s3, d⟩
        have hmain : get_shared_gpu_memory_info true s fd oc now sub =
            (⟨s3.sharedUsed, s3.sharedTotal, s3.sharedPercent⟩, s3, d) := by
          simp [get_shared_gpu_memory_info, hsw, hpf, hds]
        rw [hmain] at h ⊢
        simp only at h
        have hflags := sgmDispatchStep_flags (sgmConsume s oc now) now sub
          (by rw [hds]; exact h)
        rw [hds] at hflags
        exact hflags

/-- C4: at most one probe is in flight per cache — for the transfer-speed
cache, entries into `get_speeds` made while `_measuring` is set return
cached values and start nothing, so a sequence of calls overlapping one
started measurement performs exactly that one measurement; for the
shared-GPU-memory cache, polls made while `_query_in_progress` is set (and
the outstanding future is not yet done) dispatch nothing and leave the
state unchanged, so a dispatching poll followed by any number of such
polls yields exactly one dispatch. -/
theorem C4_at_most_one_in_flight :
    (∀ (interval : ℚ) (s : TSState) (times : List ℚ),
        s.measuring = true → tsEnterFold interval s times = (0, s)) ∧
    (∀ (interval : ℚ) (s : TSState) (t : ℚ) (times : List ℚ),
        (tsEnter interval s t).1 = .measureStarted →
        tsEnterFold interval s (t :: times) = (1, (tsEnter interval s t).2)) ∧
    (∀ (isWindows : Bool) (s : SGMState) (fd : Bool)
        (oc : Except Unit (ℤ × ℤ)) (now : ℚ) (sub : Bool),
        s.queryInProgress = true → (s.hasPending = false ∨ fd = false) →
        (get_shared_gpu_memory_info isWindows s fd oc now sub).2 = (s, false)) ∧
    (∀ (isWindows : Bool) (s : SGMState) (c : SGMCallIn) (calls : List SGMCallIn),
        (get_shared_gpu_memory_info isWindows s c.futureDone c.outcome c.now
          c.submitOk).2.2 = true →
        (∀ c' ∈ calls, c'.futureDone = false) →
        sgmPollFold isWindows s (c :: calls) =
          (1, (get_shared_gpu_memory_info isWindows s c.futureDone c.outcome
                c.now c.submitOk).2.1)) := by
  refine ⟨tsEnterFold_measuring, ?_, sgm_poll_inflight, ?_⟩
  · intro interval s t times h
    rcases he : tsEnter interval s t with ⟨o, s2⟩
    have hm : s2.measuring = true := by
      have := tsEnter_started_measuring interval s t h
      rw [he] at this
      exact this
    rw [he] at h
    simp at h
    subst h
    simp [tsEnterFold, he, tsEnterFold_measuring interval s2 times hm]
  · intro isWin s c calls hd hnd
    have hq := sgm_dispatch_sets_flags isWin s c.futureDone c.outcome c.now
      c.submitOk hd
    simp only [sgmPollFold]
    rw [sgmPollFold_inflight isWin _ calls hq.1 hnd, hd]
    simp

/-- Closed instance of `C4_at_most_one_in_flight`: three overlapping calls
cause one measurement / one dispatch. -/
theorem C4_at_most_one_in_flight_witness :
    tsEnterFold 5 exTSActive [10, 10, 11] =
      (1, (tsEnter 5 exTSActive 10).2) ∧
    sgmPollFold true { exSGMPending with queryInProgress := false, hasPending := false }
      [⟨false, .error (), 10, true⟩, ⟨false, .error (), 10, true⟩,
       ⟨false, .error (), 11, true⟩] =
      (1, (get_shared_gpu_memory_info true
            { exSGMPending with queryInProgress := false, hasPending := false }
            false (.error ()) 10 true).2.1) :=
  ⟨C4_at_most_one_in_flight.2.1 5 exTSActive 10 [10, 11]
     (by norm_num [tsEnter, tsShouldMeasure, exTSActive, tsInit,
       TS_FAILURE_COOLDOWN]),
   C4_at_most_one_in_flight.2.2.2 true _ ⟨false, .error (), 10, true⟩
     [⟨false, .error (), 10, true⟩, ⟨false, .error (), 11, true⟩]
     (by norm_num [get_shared_gpu_memory_info, sgmDispatchStep, sgmShouldQuery,
       exSGMPending, sgmInit, SGM_UPDATE_INTERVAL])
     (by intro c' hc'; fin_cases hc' <;> rfl)⟩

theorem tsShouldMeasure_state (interval : ℚ) (s : TSState) (now : ℚ) :
    (tsShouldMeasure interval s now).2 = s ∨
    (tsShouldMeasure interval s now).2 =
      { s with inCooldown := false, consecutiveFailures := 0 } := by
  unfold tsShouldMeasure
  split_ifs <;> simp

theorem sgmShouldQuery_state (s : SGMState) (now : ℚ) :
    (sgmShouldQuery s now).2 = s ∨
    (sgmShouldQuery s now).2 =
      { s with inCooldown := false, consecutiveFailures := 0 } := by
  unfold sgmShouldQuery
  split_ifs <;> simp

theorem tsRecordFailure_cache (s : TSState) (now : ℚ) :
    (tsRecordFailure s now).lastVramSpeed = s.lastVramSpeed ∧
    (tsRecordFailure s now).lastSharedSpeed = s.lastSharedSpeed := by
  simp only [tsRecordFailure]
  split_ifs <;> exact ⟨rfl, rfl⟩

theorem tsRecord_cache_any (b : Bool) (s : TSState) (now : ℚ) :
    (if b then tsRecordFailure s now else tsRecordSuccess s).lastVramSpeed =
      s.lastVramSpeed ∧
    (if b then tsRecordFailure s now else tsRecordSuccess s).lastSharedSpeed =
      s.lastSharedSpeed := by
  cases b
  · simp [tsRecordSuccess]
  · simpa using tsRecordFailure_cache s now

theorem tsFinish_cache (s : TSState) (vram sh now : ℚ) :
    (vram ≤ 0 → (tsFinish s vram sh now).2.lastVramSpeed = s.lastVramSpeed) ∧
    (0 < vram → (tsFinish s vram sh now).2.lastVramSpeed = vram) ∧
    (sh ≤ 0 → (tsFinish s vram sh now).2.lastSharedSpeed = s.lastSharedSpeed) ∧
    (0 < sh → (tsFinish s vram sh now).2.lastSharedSpeed = sh) := by
  have hvr : (tsFinish s vram sh now).2.lastVramSpeed =
      if 0 < vram then vram else s.lastVramSpeed := by
    simp only [tsFinish]
    rw [(tsRecord_cache_any _ _ now).1]
    split_ifs <;> rfl
  have hsh : (tsFinish s vram sh now).2.lastSharedSpeed =
      if 0 < sh then sh else s.lastSharedSpeed := by
    simp only [tsFinish]
    rw [(tsRecord_cache_any _ _ now).2]
    split_ifs <;> rfl
  refine ⟨?_, ?_, ?_, ?_⟩ <;> intro h
  · rw [hvr, if_neg (not_lt.mpr h)]
  · rw [hvr, if_pos h]
  · rw [hsh, if_neg (not_lt.mpr h)]
  · rw [hsh, if_pos h]

theorem sgmRecordFailure_cache (s : SGMState) (now : ℚ) :
    (sgmRecordFailure s now).sharedUsed = s.sharedUsed ∧
    (sgmRecordFailure s now).sharedTotal = s.sharedTotal ∧
    (sgmRecordFailure s now).sharedPercent = s.sharedPercent := by
  simp only [sgmRecordFailure]
  split_ifs <;> exact ⟨rfl, rfl, rfl⟩

theorem sgmDispatchStep_cache (s : SGMState) (now : ℚ) (sub : Bool) :
    (sgmDispatchStep s now sub).1.sharedUsed = s.sharedUsed ∧
    (sgmDispatchStep s now sub).1.sharedTotal = s.sharedTotal ∧
    (sgmDispatchStep s now sub).1.sharedPercent = s.sharedPercent := by
  unfold sgmDispatchStep
  rcases hsq : sgmShouldQuery s now with ⟨ok, s2a⟩
  have hcache : s2a.sharedUsed = s.sharedUsed ∧ s2a.sharedTotal = s.sharedTotal ∧
      s2a.sharedPercent = s.sharedPercent := by
    have hst := sgmShouldQuery_state s now
    rw [hsq] at hst
    rcases hst with h | h <;> simp at h <;> subst h <;> exact ⟨rfl, rfl, rfl⟩
  cases hq : s.queryInProgress
  · simp only [hq, hsq]
    cases ok
    · simpa using hcache
    · cases hsub : sub
      · simp only
        have hrf := sgmRecordFailure_cache { s2a with queryInProgress := false } now
        simp at hrf ⊢
        exact ⟨hrf.1.trans hcache.1, hrf.2.1.trans hcache.2.1, hrf.2.2.trans hcache.2.2⟩
      · simpa using hcache
  · simp [hq]

/-- C1, counterexample as stated: with the feature on and the measurement
interval elapsed, a single `get_speeds` call runs the measurement bodies
synchronously on the calling thread and returns this call's fresh
measurement (1234), not the previously cached value (-1). -/
theorem C1_counterexample :
    (get_speeds 5 exTSActive 10 1234 567 11).1.ranProbeOnCaller = true ∧
    (get_speeds 5 exTSActive 10 1234 567 11).1.vram_speed = 1234 ∧
    exTSActive.lastVramSpeed = -1 := by
  refine ⟨?_, ?_, rfl⟩ <;>
    norm_num [get_speeds, tsEnter, tsShouldMeasure, tsFinish, tsRecordSuccess,
      exTSActive, tsInit, TS_FAILURE_COOLDOWN]

/-- C1 amended: the shared-GPU-memory poll always returns exactly the
cached fields of its post-consumption state — in particular, when no
previously dispatched probe has completed, it returns the pre-call cached
values even if it dispatches a new probe — and never executes the probe on
the calling thread; the transfer-speed poll returns cached values without
measuring when a measurement is already in progress or `_should_measure`
declines, but otherwise runs the measurement synchronously on the calling
thread. -/
theorem C1_amended_nonblocking_poll :
    (∀ (isWindows : Bool) (s : SGMState) (fd : Bool)
        (oc : Except Unit (ℤ × ℤ)) (now : ℚ) (sub : Bool),
        s.switchSharedGPUMemory = true → isWindows = true →
        ((get_shared_gpu_memory_info isWindows s fd oc now sub).1 =
          ⟨(get_shared_gpu_memory_info isWindows s fd oc now sub).2.1.sharedUsed,
           (get_shared_gpu_memory_info isWindows s fd oc now sub).2.1.sharedTotal,
           (get_shared_gpu_memory_info isWindows s fd oc now sub).2.1.sharedPercent⟩) ∧
        ((s.hasPending = false ∨ fd = false) →
          (get_shared_gpu_memory_info isWindows s fd oc now sub).1 =
            ⟨s.sharedUsed, s.sharedTotal, s.sharedPercent⟩)) ∧
    (∀ (interval : ℚ) (s : TSState) (now vram sh now2 : ℚ),
        s.switchTransferSpeed = true →
        (s.measuring = true →
          get_speeds interval s now vram sh now2 =
            (⟨s.lastVramSpeed, s.lastSharedSpeed, false⟩, s)) ∧
        (s.measuring = false → (tsShouldMeasure interval s now).1 = false →
          get_speeds interval s now vram sh now2 =
            (⟨(tsShouldMeasure interval s now).2.lastVramSpeed,
              (tsShouldMeasure interval s now).2.lastSharedSpeed, false⟩,
             (tsShouldMeasure interval s now).2)) ∧
        (s.measuring = false → (tsShouldMeasure interval s now).1 = true →
          (get_speeds interval s now vram sh now2).1.ranProbeOnCaller = true)) := by
  constructor
  · intro isWindows s fd oc now sub hsw hw
    subst hw
    constructor
    · cases hpf : s.hasPending && fd
      · rcases hds : sgmDispatchStep s now sub with ⟨s3, d⟩
        simp [get_shared_gpu_memory_info, hsw, hpf, hds]
      · rcases hds : sgmDispatchStep (sgmConsume s oc now) now sub with ⟨s3, d⟩
        simp [get_shared_gpu_memory_info, hsw, hpf, hds]
    · intro hnp
      have hskip : (s.hasPending && fd) = false := by
        rcases hnp with h | h <;> simp [h]
      rcases hds : sgmDispatchStep s now sub with ⟨s3, d⟩
      have hcache := sgmDispatchStep_cache s now sub
      rw [hds] at hcache
      simp only at hcache
      simp [get_shared_gpu_memory_info, hsw, hskip, hds, hcache.1, hcache.2.1,
        hcache.2.2]
  · intro interval s now vram sh now2 hsw
    refine ⟨?_, ?_, ?_⟩
    · intro hm
      simp [get_speeds, hsw, tsEnter, hm]
    · intro hm hok
      rcases hsm : tsShouldMeasure interval s now with ⟨ok, s2⟩
      rw [hsm] at hok
      simp at hok
      subst hok
      simp [get_speeds, hsw, tsEnter, hm, hsm]
    · intro hm hok
      rcases hsm : tsShouldMeasure interval s now with ⟨ok, s2⟩
      rw [hsm] at hok
      simp at hok
      subst hok
      rcases hf : tsFinish { s2 with measuring := true } vram sh now2 with ⟨⟨v, shv⟩, s3⟩
      simp [get_speeds, hsw, tsEnter, hm, hsm, hf]

/-- Closed instance of `C1_amended_nonblocking_poll`. -/
theorem C1_amended_nonblocking_poll_witness :
    (get_shared_gpu_memory_info true
      { sgmInit with switchSharedGPUMemory := true } false (.error ()) 3 true).1 =
      ⟨{ sgmInit with switchSharedGPUMemory := true }.sharedUsed,
       { sgmInit with switchSharedGPUMemory := true }.sharedTotal,
       { sgmInit with switchSharedGPUMemory := true }.sharedPercent⟩ ∧
    get_speeds 5 { exTSActive with measuring := true } 0 9 9 0 =
      (⟨{ exTSActive with measuring := true }.lastVramSpeed,
        { exTSActive with measuring := true }.lastSharedSpeed, false⟩,
       { exTSActive with measuring := true }) :=
  ⟨(C1_amended_nonblocking_poll.1 true _ false (.error ()) 3 true rfl rfl).2
     (Or.inl rfl),
   (C1_amended_nonblocking_poll.2 5 _ 0 9 9 0 rfl).1 rfl⟩

/-- C2, counterexample as stated: with all cached fields still holding
their initial sentinels, a completed probe that failed (the
performance-counter query returned -1) overwrites the cached percent
sentinel `-1.0` with `0.0` even though the probe was recorded as a
failure. -/
theorem C2_counterexample :
    exSGMPending.sharedPercent = -1 ∧
    (get_shared_gpu_memory_info true exSGMPending true (.ok (-1, -1))
      100 true).1.shared_gpu_memory_percent = 0 ∧
    (get_shared_gpu_memory_info true exSGMPending true (.ok (-1, -1))
      100 true).2.1.consecutiveFailures = 1 := by
  refine ⟨rfl, ?_, ?_⟩ <;>
    norm_num [get_shared_gpu_memory_info, sgmConsume, sgmDispatchStep,
      sgmShouldQuery, sgmRecordFailure, exSGMPending, sgmInit,
      SGM_UPDATE_INTERVAL, MAX_CONSECUTIVE_FAILURES]

/-- C2 amended: failed probes never overwrite the cached measurement
values — the transfer-speed cache updates each speed only on a positive
result, the shared-GPU-memory cache updates `used` only when the result is
`≥ 0` and `total` only when it is `> 0`, and an exception while retrieving
the result preserves all three cached fields — except that the
shared-memory percent is recomputed on every non-exceptional completed
probe: it becomes `used/total*100` of the post-update cache when
`total > 0` and `used ≥ 0`, and `0.0` otherwise (clobbering the initial
`-1.0` sentinel after a failure, as the counterexample shows). -/
theorem C2_amended_cache_retention :
    (∀ (interval : ℚ) (s : TSState) (now vram sh now2 : ℚ),
        (vram ≤ 0 →
          (get_speeds interval s now vram sh now2).2.lastVramSpeed = s.lastVramSpeed) ∧
        (sh ≤ 0 →
          (get_speeds interval s now vram sh now2).2.lastSharedSpeed = s.lastSharedSpeed) ∧
        ((get_speeds interval s now vram sh now2).1.ranProbeOnCaller = true →
          (0 < vram →
            (get_speeds interval s now vram sh now2).2.lastVramSpeed = vram) ∧
          (0 < sh →
            (get_speeds interval s now vram sh now2).2.lastSharedSpeed = sh))) ∧
    (∀ (s : SGMState) (now : ℚ),
        (sgmConsume s (.error ()) now).sharedUsed = s.sharedUsed ∧
        (sgmConsume s (.error ()) now).sharedTotal = s.sharedTotal ∧
        (sgmConsume s (.error ()) now).sharedPercent = s.sharedPercent) ∧
    (∀ (s : SGMState) (u t : ℤ) (now : ℚ),
        (u < 0 → (sgmConsume s (.ok (u, t)) now).sharedUsed = s.sharedUsed) ∧
        (0 ≤ u → (sgmConsume s (.ok (u, t)) now).sharedUsed = u) ∧
        (t ≤ 0 → (sgmConsume s (.ok (u, t)) now).sharedTotal = s.sharedTotal) ∧
        (0 < t → (sgmConsume s (.ok (u, t)) now).sharedTotal = t) ∧
        ((sgmConsume s (.ok (u, t)) now).sharedPercent =
          if 0 < (sgmConsume s (.ok (u, t)) now).sharedTotal ∧
             0 ≤ (sgmConsume s (.ok (u, t)) now).sharedUsed
          then ((sgmConsume s (.ok (u, t)) now).sharedUsed : ℚ) /
                ((sgmConsume s (.ok (u, t)) now).sharedTotal : ℚ) * 100
          else 0)) ∧
    (∀ (isWindows : Bool) (s : SGMState) (fd : Bool)
        (oc : Except Unit (ℤ × ℤ)) (now : ℚ) (sub : Bool),
        (s.hasPending = false ∨ fd = false) →
        (get_shared_gpu_memory_info isWindows s fd oc now sub).2.1.sharedUsed = s.sharedUsed ∧
        (get_shared_gpu_memory_info isWindows s fd oc now sub).2.1.sharedTotal = s.sharedTotal ∧
        (get_shared_gpu_memory_info isWindows s fd oc now sub).2.1.sharedPercent = s.sharedPercent) := by
  refine ⟨?_, ?_, ?_, ?_⟩
  · intro interval s now vram sh now2
    cases hsw : s.switchTransferSpeed
    · simp [get_speeds, hsw]
    · cases hm : s.measuring
      · rcases hsm : tsShouldMeasure interval s now with ⟨ok, s2⟩
        have hs2 : s2.lastVramSpeed = s.lastVramSpeed ∧
            s2.lastSharedSpeed = s.lastSharedSpeed := by
          have hst := tsShouldMeasure_state interval s now
          rw [hsm] at hst
          rcases hst with h | h <;> simp at h <;> subst h <;> exact ⟨rfl, rfl⟩
        cases ok
        · simp [get_speeds, hsw, tsEnter, hm, hsm, hs2.1, hs2.2]
        · rcases hf : tsFinish { s2 with measuring := true } vram sh now2
            with ⟨⟨v, shv⟩, s3⟩
          have hfin := tsFinish_cache { s2 with measuring := true } vram sh now2
          rw [hf] at hfin
          simp only at hfin
          simp [get_speeds, hsw, tsEnter, hm, hsm, hf]
          exact ⟨fun h => (hfin.1 h).trans hs2.1,
                 fun h => (hfin.2.2.1 h).trans hs2.2,
                 hfin.2.1, hfin.2.2.2⟩
      · simp [get_speeds, hsw, tsEnter, hm]
  · intro s now
    have h := sgmRecordFailure_cache s now
    simp [sgmConsume, h.1, h.2.1, h.2.2]
  · intro s u t now
    have hused : (sgmConsume s (.ok (u, t)) now).sharedUsed =
        if 0 ≤ u then u else s.sharedUsed := by
      simp only [sgmConsume, sgmRecordSuccess, sgmRecordFailure]
      split_ifs <;> simp_all
    have htotal : (sgmConsume s (.ok (u, t)) now).sharedTotal =
        if 0 < t then t else s.sharedTotal := by
      simp only [sgmConsume, sgmRecordSuccess, sgmRecordFailure]
      split_ifs <;> simp_all
    refine ⟨?_, ?_, ?_, ?_, ?_⟩
    · intro h
      rw [hused, if_neg (not_le.mpr h)]
    · intro h
      rw [hused, if_pos h]
    · intro h
      rw [htotal, if_neg (not_lt.mpr h)]
    · intro h
      rw [htotal, if_pos h]
    · simp only [sgmConsume, sgmRecordSuccess, sgmRecordFailure]
      split_ifs <;> simp_all
  · intro isWindows s fd oc now sub hnp
    have hskip : (s.hasPending && fd) = false := by
      rcases hnp with h | h <;> simp [h]
    cases hsw : s.switchSharedGPUMemory
    · simp [get_shared_gpu_memory_info, hsw]
    · cases hw : isWindows
      · simp [get_shared_gpu_memory_info, hsw, hw]
      · rcases hds : sgmDispatchStep s now sub with ⟨s3, d⟩
        have hcache := sgmDispatchStep_cache s now sub
        rw [hds] at hcache
        simp only at hcache
        simp [get_shared_gpu_memory_info, hsw, hw, hskip, hds, hcache.1,
          hcache.2.1, hcache.2.2]

/-- Closed instance of `C2_amended_cache_retention`. -/
theorem C2_amended_cache_retention_witness :
    (get_speeds 5 exTSActive 10 (-1) (-1) 11).2.lastVramSpeed =
      exTSActive.lastVramSpeed ∧
    (sgmConsume sgmInit (.error ()) 7).sharedPercent = sgmInit.sharedPercent ∧
    (sgmConsume sgmInit (.ok (-1, -1)) 7).sharedUsed = sgmInit.sharedUsed ∧
    (get_shared_gpu_memory_info true sgmInit false (.error ()) 7
      true).2.1.sharedPercent = sgmInit.sharedPercent :=
  ⟨(C2_amended_cache_retention.1 5 exTSActive 10 (-1) (-1) 11).1 (by norm_num),
   (C2_amended_cache_retention.2.1 sgmInit 7).2.2,
   (C2_amended_cache_retention.2.2.1 sgmInit (-1) (-1) 7).1 (by norm_num),
   (C2_amended_cache_retention.2.2.2 true sgmInit false (.error ()) 7 true
     (Or.inl rfl)).2.2⟩

theorem initLibGo_fields (env : GpuEnv) (n : ℕ) :
    ∀ (a : ℕ) (s : GPUState),
      (initLibGo env n a s).gpus = s.gpus ∧
      (initLibGo env n a s).gpusUtilization = s.gpusUtilization ∧
      (initLibGo env n a s).gpusVRAM = s.gpusVRAM ∧
      (initLibGo env n a s).gpusTemperature = s.gpusTemperature ∧
      (initLibGo env n a s).switchGPU = s.switchGPU ∧
      (initLibGo env n a s).switchVRAM = s.switchVRAM ∧
      (initLibGo env n a s).switchTemperature = s.switchTemperature ∧
      (initLibGo env n a s).cudaDevicesFound = s.cudaDevicesFound ∧
      (initLibGo env n a s).closed = s.closed ∧
      (initLibGo env n a s).anygpuLoaded = s.anygpuLoaded := by
  induction n with
  | zero => intro a s; simp [initLibGo]
  | succ n ih =>
      intro a s
      cases hat : env.attempts a
      · cases hjt : env.isJetson <;> simp [initLibGo, hat, hjt]
      · simp [initLibGo, hat]
      · cases hjt : env.isJetson
        · simpa [initLibGo, hat, hjt] using ih (a + 1) { s with pynvml := some a }
        · simpa [initLibGo, hat, hjt] using ih (a + 1) { s with jtopInstance := some a }

theorem initLibGo_loaded_congr (env : GpuEnv) (n : ℕ) :
    ∀ (a : ℕ) (s t : GPUState), s.pynvmlLoaded = t.pynvmlLoaded →
      s.jtopLoaded = t.jtopLoaded →
      (initLibGo env n a s).pynvmlLoaded = (initLibGo env n a t).pynvmlLoaded ∧
      (initLibGo env n a s).jtopLoaded = (initLibGo env n a t).jtopLoaded := by
  induction n with
  | zero => intro a s t hp hj; simpa [initLibGo] using ⟨hp, hj⟩
  | succ n ih =>
      intro a s t hp hj
      cases hat : env.attempts a
      · cases hjt : env.isJetson <;> simp [initLibGo, hat, hjt, hp, hj]
      · simpa [initLibGo, hat] using ⟨hp, hj⟩
      · cases hjt : env.isJetson
        · simpa [initLibGo, hat, hjt] using
            ih (a + 1) { s with pynvml := some a } { t with pynvml := some a } hp hj
        · simpa [initLibGo, hat, hjt] using
            ih (a + 1) { s with jtopInstance := some a }
              { t with jtopInstance := some a } hp hj

theorem initLib_tracked_congr (env : GpuEnv) (s t : GPUState)
    (h : trackedT s = trackedT t) :
    trackedT (init_gpu_library env s) = trackedT (init_gpu_library env t) := by
  simp only [trackedT, Prod.mk.injEq] at h ⊢
  obtain ⟨h1, h2, h3, h4, h5, h6, h7, h8⟩ := h
  have hF := initLibGo_fields env MAX_INIT_RETRIES 0 s
  have hG := initLibGo_fields env MAX_INIT_RETRIES 0 t
  have hL := initLibGo_loaded_congr env MAX_INIT_RETRIES 0 s t h1 h2
  exact ⟨hL.1, hL.2,
    (hF.2.2.2.2.2.2.2.2.2.trans h3).trans hG.2.2.2.2.2.2.2.2.2.symm,
    (hF.1.trans h4).trans hG.1.symm,
    (hF.2.1.trans h5).trans hG.2.1.symm,
    (hF.2.2.1.trans h6).trans hG.2.2.1.symm,
    (hF.2.2.2.1.trans h7).trans hG.2.2.2.1.symm,
    (hF.2.2.2.2.2.2.2.1.trans h8).trans hG.2.2.2.2.2.2.2.1.symm⟩

theorem setup_stage1_tracked_congr (s t : GPUState)
    (h : trackedT s = trackedT t) :
    trackedT (setup_stage1 s) = trackedT (setup_stage1 t) := by
  simp only [trackedT, Prod.mk.injEq] at h ⊢
  obtain ⟨h1, h2, h3, h4, h5, h6, h7, h8⟩ := h
  exact ⟨h1, h2, by rw [setup_stage1, setup_stage1, h1, h2], h4, h5, h6, h7, h8⟩

theorem setup_stage2_tracked (env : GpuEnv) (s : GPUState) :
    trackedT (setup_stage2 env s) = trackedT s := by
  cases htn : env.torchDeviceName <;> simp [setup_stage2, trackedT, htn]

theorem setup_stage3_tracked_congr (env : GpuEnv) (s t : GPUState)
    (h : trackedT s = trackedT t) :
    trackedT (setup_stage3 env s) = trackedT (setup_stage3 env t) := by
  simp only [trackedT, Prod.mk.injEq] at h ⊢
  obtain ⟨h1, h2, h3, h4, h5, h6, h7, h8⟩ := h
  simp only [setup_stage3, deviceGetCount, h1, h2]
  split_ifs <;> simp_all

theorem setup_stage4_tracked_congr (env : GpuEnv) (s t : GPUState)
    (h : trackedT s = trackedT t) :
    trackedT (setup_stage4 env s) = trackedT (setup_stage4 env t) := by
  simp only [trackedT, Prod.mk.injEq] at h ⊢
  obtain ⟨h1, h2, h3, h4, h5, h6, h7, h8⟩ := h
  simp only [setup_stage4, deviceGetCount, deviceNameAt, h1, h2, h3, h4, h5,
    h6, h7, h8]
  split_ifs <;> simp_all

theorem setup_stage5_tracked (env : GpuEnv) (s : GPUState) :
    trackedT (setup_stage5 env s) = trackedT s := by
  simp [setup_stage5, trackedT]

theorem setup_tracked_congr (env : GpuEnv) (s t : GPUState)
    (h : trackedT s = trackedT t) :
    trackedT (setup_gpu_devices env s) = trackedT (setup_gpu_devices env t) := by
  unfold setup_gpu_devices
  rw [setup_stage5_tracked, setup_stage5_tracked]
  apply setup_stage4_tracked_congr
  apply setup_stage3_tracked_congr
  rw [setup_stage2_tracked, setup_stage2_tracked]
  exact setup_stage1_tracked_congr s t h

theorem setup_switches (env : GpuEnv) (s : GPUState) :
    (setup_gpu_devices env s).switchGPU = s.switchGPU ∧
    (setup_gpu_devices env s).switchVRAM = s.switchVRAM ∧
    (setup_gpu_devices env s).switchTemperature = s.switchTemperature := by
  unfold setup_gpu_devices setup_stage5 setup_stage4 setup_stage3 setup_stage2
    setup_stage1
  cases env.torchDeviceName <;> split_ifs <;> exact ⟨rfl, rfl, rfl⟩

theorem setup_stage2_arrays (env : GpuEnv) (s : GPUState) :
    (setup_stage2 env s).gpusUtilization = s.gpusUtilization ∧
    (setup_stage2 env s).gpusVRAM = s.gpusVRAM ∧
    (setup_stage2 env s).gpusTemperature = s.gpusTemperature ∧
    (setup_stage2 env s).cudaDevicesFound = s.cudaDevicesFound := by
  cases htn : env.torchDeviceName <;> simp [setup_stage2, htn]

theorem setup_stage3_arrays (env : GpuEnv) (s : GPUState) :
    (setup_stage3 env s).gpusUtilization = s.gpusUtilization ∧
    (setup_stage3 env s).gpusVRAM = s.gpusVRAM ∧
    (setup_stage3 env s).gpusTemperature = s.gpusTemperature ∧
    (setup_stage3 env s).cudaDevicesFound = s.cudaDevicesFound := by
  unfold setup_stage3
  split_ifs <;> exact ⟨rfl, rfl, rfl, rfl⟩

theorem setup_stage4_align (env : GpuEnv) (s : GPUState)
    (hu : s.gpusUtilization = []) (hv : s.gpusVRAM = [])
    (ht : s.gpusTemperature = []) (hc : s.cudaDevicesFound = 0) :
    (setup_stage4 env s).gpusUtilization =
      List.replicate ((setup_stage4 env s).cudaDevicesFound) true ∧
    (setup_stage4 env s).gpusVRAM =
      List.replicate ((setup_stage4 env s).cudaDevicesFound) true ∧
    (setup_stage4 env s).gpusTemperature =
      List.replicate ((setup_stage4 env s).cudaDevicesFound) true := by
  unfold setup_stage4
  split_ifs <;> simp_all

theorem setup_align (env : GpuEnv) (s : GPUState)
    (hu : s.gpusUtilization = []) (hv : s.gpusVRAM = [])
    (ht : s.gpusTemperature = []) (hc : s.cudaDevicesFound = 0) :
    (setup_gpu_devices env s).gpusUtilization =
      List.replicate ((setup_gpu_devices env s).cudaDevicesFound) true ∧
    (setup_gpu_devices env s).gpusVRAM =
      List.replicate ((setup_gpu_devices env s).cudaDevicesFound) true ∧
    (setup_gpu_devices env s).gpusTemperature =
      List.replicate ((setup_gpu_devices env s).cudaDevicesFound) true := by
  have h2 := setup_stage2_arrays env (setup_stage1 s)
  have h3 := setup_stage3_arrays env (setup_stage2 env (setup_stage1 s))
  have h4 := setup_stage4_align env
    (setup_stage3 env (setup_stage2 env (setup_stage1 s)))
    (h3.1.trans (h2.1.trans hu)) (h3.2.1.trans (h2.2.1.trans hv))
    (h3.2.2.1.trans (h2.2.2.1.trans ht)) (h3.2.2.2.trans (h2.2.2.2.trans hc))
  exact h4

/-- C5, counterexample as stated: a successful `reinitialize()` returns
true but neither restores the auto-disable switch `switchGPU` to its
default `true` nor clears the stale provider handle field. -/
theorem C5_counterexample :
    (reinitializeGPU exEnvOk exGPUStale).1 = true ∧
    (reinitializeGPU exEnvOk exGPUStale).2.switchGPU = false ∧
    (reinitializeGPU exEnvOk exGPUStale).2.jtopInstance = some 99 := by
  refine ⟨?_, ?_, ?_⟩ <;> decide

/-- C5 amended: `reinitialize()` resets the device list, the per-device
switch arrays, the loaded flags, the device count, the cuda flag and the
closed flag — but not the global per-metric switches nor the provider
handle fields — then re-runs initialization; it returns exactly
`is_operational` of the post-state, and afterwards the device list and
per-device switch arrays exactly match a fresh enumeration (index-aligned,
all per-device entries true, no stale entries). -/
theorem C5_amended_reinitialize_resets :
    ∀ (env : GpuEnv) (s : GPUState),
      (reinitializeGPU env s).1 = is_operational (reinitializeGPU env s).2 ∧
      (reinitializeGPU env s).2.switchGPU = s.switchGPU ∧
      (reinitializeGPU env s).2.switchVRAM = s.switchVRAM ∧
      (reinitializeGPU env s).2.switchTemperature = s.switchTemperature ∧
      (reinitializeGPU env s).2.gpus = (freshInit env).gpus ∧
      (reinitializeGPU env s).2.gpusUtilization =
        List.replicate ((reinitializeGPU env s).2.cudaDevicesFound) true ∧
      (reinitializeGPU env s).2.gpusVRAM =
        List.replicate ((reinitializeGPU env s).2.cudaDevicesFound) true ∧
      (reinitializeGPU env s).2.gpusTemperature =
        List.replicate ((reinitializeGPU env s).2.cudaDevicesFound) true ∧
      (reinitializeGPU env s).2.cudaDevicesFound =
        (freshInit env).cudaDevicesFound := by
  intro env s
  simp only [reinitializeGPU, freshInit]
  set rst : GPUState :=
    { s with
      closed := false
      pynvmlLoaded := false
      jtopLoaded := false
      anygpuLoaded := false
      gpus := []
      gpusUtilization := []
      gpusVRAM := []
      gpusTemperature := []
      cudaDevicesFound := 0
      cuda := false } with hrst
  have htr : trackedT rst = trackedT gpuInitialState := rfl
  have hcong := setup_tracked_congr env _ _ (initLib_tracked_congr env _ _ htr)
  simp only [trackedT, Prod.mk.injEq] at hcong
  obtain ⟨hc1, hc2, hc3, hc4, hc5, hc6, hc7, hc8⟩ := hcong
  have hFi := initLibGo_fields env MAX_INIT_RETRIES 0 rst
  have halign := setup_align env (init_gpu_library env rst)
    hFi.2.1 hFi.2.2.1 hFi.2.2.2.1 hFi.2.2.2.2.2.2.2.1
  have hsw := setup_switches env (init_gpu_library env rst)
  exact ⟨trivial, hsw.1.trans hFi.2.2.2.2.1, hsw.2.1.trans hFi.2.2.2.2.2.1,
    hsw.2.2.trans hFi.2.2.2.2.2.2.1, hc4, halign.1, halign.2.1, halign.2.2, hc8⟩

/-- Closed instance of `C5_amended_reinitialize_resets`. -/
theorem C5_amended_reinitialize_resets_witness :
    (reinitializeGPU exEnvOk exGPUStale).2.switchGPU = exGPUStale.switchGPU ∧
    (reinitializeGPU exEnvOk exGPUStale).2.gpus = (freshInit exEnvOk).gpus :=
  ⟨(C5_amended_reinitialize_resets exEnvOk exGPUStale).2.1,
   (C5_amended_reinitialize_resets exEnvOk exGPUStale).2.2.2.2.1⟩

theorem vramRead_switchGPU (env : ReadEnv) (s : GPUState) (i : ℕ) (b : Bool) :
    vramRead env { s with switchGPU := b } i =
      ((vramRead env s i).1, { (vramRead env s i).2 with switchGPU := b }) := by
  simp only [vramRead]
  split_ifs
  · cases hm : env.memoryInfo i <;> simp [hm]
  · simp

theorem tempRead_switchGPU (env : ReadEnv) (s : GPUState) (i : ℕ) (b : Bool) :
    tempRead env { s with switchGPU := b } i =
      ((tempRead env s i).1, { (tempRead env s i).2 with switchGPU := b }) := by
  simp only [tempRead]
  split_ifs
  · cases hm : env.temperature i <;> simp [hm]
  · simp

theorem utilRead_switchVRAM (env : ReadEnv) (s : GPUState) (i : ℕ) (b : Bool) :
    utilRead env { s with switchVRAM := b } i =
      ((utilRead env s i).1, { (utilRead env s i).2 with switchVRAM := b }) := by
  simp only [utilRead]
  split_ifs
  · cases hm : env.utilization i <;> simp [hm]
  · simp

theorem tempRead_switchVRAM (env : ReadEnv) (s : GPUState) (i : ℕ) (b : Bool) :
    tempRead env { s with switchVRAM := b } i =
      ((tempRead env s i).1, { (tempRead env s i).2 with switchVRAM := b }) := by
  simp only [tempRead]
  split_ifs
  · cases hm : env.temperature i <;> simp [hm]
  · simp

theorem utilRead_switchTemperature (env : ReadEnv) (s : GPUState) (i : ℕ)
    (b : Bool) :
    utilRead env { s with switchTemperature := b } i =
      ((utilRead env s i).1,
       { (utilRead env s i).2 with switchTemperature := b }) := by
  simp only [utilRead]
  split_ifs
  · cases hm : env.utilization i <;> simp [hm]
  · simp

theorem vramRead_switchTemperature (env : ReadEnv) (s : GPUState) (i : ℕ)
    (b : Bool) :
    vramRead env { s with switchTemperature := b } i =
      ((vramRead env s i).1,
       { (vramRead env s i).2 with switchTemperature := b }) := by
  simp only [vramRead]
  split_ifs
  · cases hm : env.memoryInfo i <;> simp [hm]
  · simp

theorem readDevice_switchGPU_off (env : ReadEnv) (s : GPUState) (i : ℕ) :
    readDevice env { s with switchGPU := false } i =
      ({ (readDevice env s i).1 with gpu_utilization := -1 },
       { (readDevice env s i).2 with switchGPU := false }) := by
  rcases hu : utilRead env s i with ⟨u, s1⟩
  have hs1 : ({ s with switchGPU := false } : GPUState) =
      { s1 with switchGPU := false } := by
    have h := utilRead_state env s i
    rw [hu] at h
    simp only at h
    rcases h with h | h <;> subst h <;> rfl
  have huoff : utilRead env { s1 with switchGPU := false } i =
      (-1, { s1 with switchGPU := false }) := by
    simp [utilRead]
  rcases hv : vramRead env s1 i with ⟨⟨used, total, p⟩, s2⟩
  rcases ht : tempRead env s2 i with ⟨t, s3⟩
  have hvmod : vramRead env { s1 with switchGPU := false } i =
      ((used, total, p), { s2 with switchGPU := false }) := by
    rw [vramRead_switchGPU, hv]
  have htmod : tempRead env { s2 with switchGPU := false } i =
      (t, { s3 with switchGPU := false }) := by
    rw [tempRead_switchGPU, ht]
  simp only [readDevice, hs1, huoff, hvmod, htmod, hu, hv, ht]

theorem readDevice_switchVRAM_off (env : ReadEnv) (s : GPUState) (i : ℕ) :
    readDevice env { s with switchVRAM := false } i =
      ({ (readDevice env s i).1 with vram_total := -1, vram_used := -1, vram_used_percent := -1 },
       { (readDevice env s i).2 with switchVRAM := false }) := by
  rcases hu : utilRead env s i with ⟨u, s1⟩
  have hu' : utilRead env { s with switchVRAM := false } i =
      (u, { s1 with switchVRAM := false }) := by
    rw [utilRead_switchVRAM, hu]
  rcases hv : vramRead env s1 i with ⟨⟨used, total, p⟩, s2⟩
  have hv' : vramRead env { s1 with switchVRAM := false } i =
      ((-1, -1, -1), { s1 with switchVRAM := false }) := by
    simp [vramRead]
  have hs2 : ({ s1 with switchVRAM := false } : GPUState) =
      { s2 with switchVRAM := false } := by
    have h := vramRead_state env s1 i
    rw [hv] at h
    simp only at h
    rcases h with h | h <;> subst h <;> rfl
  have hv2 : vramRead env { s2 with switchVRAM := false } i =
      ((-1, -1, -1), { s2 with switchVRAM := false }) := by
    simp [vramRead]
  rcases ht : tempRead env s2 i with ⟨t, s3⟩
  have htmod : tempRead env { s2 with switchVRAM := false } i =
      (t, { s3 with switchVRAM := false }) := by
    rw [tempRead_switchVRAM, ht]
  simp only [readDevice, hu', hv', hs2, hv2, htmod, hu, hv, ht]

theorem readDevice_switchTemperature_off (env : ReadEnv) (s : GPUState) (i : ℕ) :
    readDevice env { s with switchTemperature := false } i =
      ({ (readDevice env s i).1 with gpu_temperature := -1 },
       { (readDevice env s i).2 with switchTemperature := false }) := by
  rcases hu : utilRead env s i with ⟨u, s1⟩
  have hu' : utilRead env { s with switchTemperature := false } i =
      (u, { s1 with switchTemperature := false }) := by
    rw [utilRead_switchTemperature, hu]
  rcases hv : vramRead env s1 i with ⟨⟨used, total, p⟩, s2⟩
  have hv' : vramRead env { s1 with switchTemperature := false } i =
      ((used, total, p), { s2 with switchTemperature := false }) := by
    rw [vramRead_switchTemperature, hv]
  rcases ht : tempRead env s2 i with ⟨t, s3⟩
  have ht' : tempRead env { s2 with switchTemperature := false } i =
      (-1, { s2 with switchTemperature := false }) := by
    simp [tempRead]
  have hs3 : ({ s2 with switchTemperature := false } : GPUState) =
      { s3 with switchTemperature := false } := by
    have h := tempRead_state env s2 i
    rw [ht] at h
    simp only at h
    rcases h with h | h <;> subst h <;> rfl
  have ht3 : tempRead env { s3 with switchTemperature := false } i =
      (-1, { s3 with switchTemperature := false }) := by
    simp [tempRead]
  simp only [readDevice, hu', hv', ht', hs3, ht3, hu, hv, ht]

theorem eta_switchGPU (s : GPUState) (h : s.switchGPU = false) :
    ({ s with switchGPU := false } : GPUState) = s := by
  cases s
  simp_all

theorem eta_switchVRAM (s : GPUState) (h : s.switchVRAM = false) :
    ({ s with switchVRAM := false } : GPUState) = s := by
  cases s
  simp_all

theorem eta_switchTemperature (s : GPUState) (h : s.switchTemperature = false) :
    ({ s with switchTemperature := false } : GPUState) = s := by
  cases s
  simp_all

theorem readDevice_util_latch (env : ReadEnv) (s : GPUState) (i : ℕ)
    (h : s.switchGPU = false) :
    (readDevice env s i).1.gpu_utilization = -1 ∧
    (readDevice env s i).2.switchGPU = false := by
  have hoff := readDevice_switchGPU_off env s i
  rw [eta_switchGPU s h] at hoff
  constructor <;> rw [hoff]

theorem readDevice_vram_latch (env : ReadEnv) (s : GPUState) (i : ℕ)
    (h : s.switchVRAM = false) :
    (readDevice env s i).1.vram_total = -1 ∧
    (readDevice env s i).1.vram_used = -1 ∧
    (readDevice env s i).1.vram_used_percent = -1 ∧
    (readDevice env s i).2.switchVRAM = false := by
  have hoff := readDevice_switchVRAM_off env s i
  rw [eta_switchVRAM s h] at hoff
  refine ⟨?_, ?_, ?_, ?_⟩ <;> rw [hoff]

theorem readDevice_temp_latch (env : ReadEnv) (s : GPUState) (i : ℕ)
    (h : s.switchTemperature = false) :
    (readDevice env s i).1.gpu_temperature = -1 ∧
    (readDevice env s i).2.switchTemperature = false := by
  have hoff := readDevice_switchTemperature_off env s i
  rw [eta_switchTemperature s h] at hoff
  constructor <;> rw [hoff]

theorem getStatusGo_util_latch (env : ReadEnv) (l : List ℕ) :
    ∀ s : GPUState, s.switchGPU = false →
      (∀ r ∈ (getStatusGo env s l).1, r.gpu_utilization = -1) ∧
      (getStatusGo env s l).2.switchGPU = false := by
  induction l with
  | nil => intro s h; simpa [getStatusGo] using h
  | cons i rest ih =>
      intro s h
      rcases hr : readDevice env s i with ⟨r, s2⟩
      have hl := readDevice_util_latch env s i h
      rw [hr] at hl
      simp only at hl
      rcases hgo : getStatusGo env s2 rest with ⟨rs, s3⟩
      have hih := ih s2 hl.2
      rw [hgo] at hih
      simp only at hih
      simp only [getStatusGo, hr, hgo]
      refine ⟨?_, hih.2⟩
      intro r' hr'
      rcases List.mem_cons.mp hr' with h' | h'
      · subst h'; exact hl.1
      · exact hih.1 r' h'

theorem getStatusGo_vram_latch (env : ReadEnv) (l : List ℕ) :
    ∀ s : GPUState, s.switchVRAM = false →
      (∀ r ∈ (getStatusGo env s l).1,
        r.vram_total = -1 ∧ r.vram_used = -1 ∧ r.vram_used_percent = -1) ∧
      (getStatusGo env s l).2.switchVRAM = false := by
  induction l with
  | nil => intro s h; simpa [getStatusGo] using h
  | cons i rest ih =>
      intro s h
      rcases hr : readDevice env s i with ⟨r, s2⟩
      have hl := readDevice_vram_latch env s i h
      rw [hr] at hl
      simp only at hl
      rcases hgo : getStatusGo env s2 rest with ⟨rs, s3⟩
      have hih := ih s2 hl.2.2.2
      rw [hgo] at hih
      simp only at hih
      simp only [getStatusGo, hr, hgo]
      refine ⟨?_, hih.2⟩
      intro r' hr'
      rcases List.mem_cons.mp hr' with h' | h'
      · subst h'; exact ⟨hl.1, hl.2.1, hl.2.2.1⟩
      · exact hih.1 r' h'

theorem getStatusGo_temp_latch (env : ReadEnv) (l : List ℕ) :
    ∀ s : GPUState, s.switchTemperature = false →
      (∀ r ∈ (getStatusGo env s l).1, r.gpu_temperature = -1) ∧
      (getStatusGo env s l).2.switchTemperature = false := by
  induction l with
  | nil => intro s h; simpa [getStatusGo] using h
  | cons i rest ih =>
      intro s h
      rcases hr : readDevice env s i with ⟨r, s2⟩
      have hl := readDevice_temp_latch env s i h
      rw [hr] at hl
      simp only at hl
      rcases hgo : getStatusGo env s2 rest with ⟨rs, s3⟩
      have hih := ih s2 hl.2
      rw [hgo] at hih
      simp only at hih
      simp only [getStatusGo, hr, hgo]
      refine ⟨?_, hih.2⟩
      intro r' hr'
      rcases List.mem_cons.mp hr' with h' | h'
      · subst h'; exact hl.1
      · exact hih.1 r' h'

theorem getStatus_util_latch (env : ReadEnv) (s : GPUState)
    (h : s.switchGPU = false) :
    (∀ r ∈ (getStatus env s).1.gpus, r.gpu_utilization = -1) ∧
    (getStatus env s).2.switchGPU = false := by
  by_cases h1 : s.cudaDevice = "cpu"
  · simp [getStatus, h1, h]
  · cases h2 : s.anygpuLoaded && s.cuda && s.cudaAvailable
    · simp [getStatus, h1, h2, h]
    · rcases hgo : getStatusGo env s (List.range s.cudaDevicesFound) with ⟨rs, s3⟩
      have hl := getStatusGo_util_latch env (List.range s.cudaDevicesFound) s h
      rw [hgo] at hl
      simp only at hl
      simp only [getStatus, h1, h2]
      simpa [hgo] using hl

theorem getStatus_vram_latch (env : ReadEnv) (s : GPUState)
    (h : s.switchVRAM = false) :
    (∀ r ∈ (getStatus env s).1.gpus,
      r.vram_total = -1 ∧ r.vram_used = -1 ∧ r.vram_used_percent = -1) ∧
    (getStatus env s).2.switchVRAM = false := by
  by_cases h1 : s.cudaDevice = "cpu"
  · simp [getStatus, h1, h]
  · cases h2 : s.anygpuLoaded && s.cuda && s.cudaAvailable
    · simp [getStatus, h1, h2, h]
    · rcases hgo : getStatusGo env s (List.range s.cudaDevicesFound) with ⟨rs, s3⟩
      have hl := getStatusGo_vram_latch env (List.range s.cudaDevicesFound) s h
      rw [hgo] at hl
      simp only at hl
      simp only [getStatus, h1, h2]
      simpa [hgo] using hl

theorem getStatus_temp_latch (env : ReadEnv) (s : GPUState)
    (h : s.switchTemperature = false) :
    (∀ r ∈ (getStatus env s).1.gpus, r.gpu_temperature = -1) ∧
    (getStatus env s).2.switchTemperature = false := by
  by_cases h1 : s.cudaDevice = "cpu"
  · simp [getStatus, h1, h]
  · cases h2 : s.anygpuLoaded && s.cuda && s.cudaAvailable
    · simp [getStatus, h1, h2, h]
    · rcases hgo : getStatusGo env s (List.range s.cudaDevicesFound) with ⟨rs, s3⟩
      have hl := getStatusGo_temp_latch env (List.range s.cudaDevicesFound) s h
      rw [hgo] at hl
      simp only at hl
      simp only [getStatus, h1, h2]
      simpa [hgo] using hl

theorem getStatusGo_switchGPU_off (env : ReadEnv) (l : List ℕ) :
    ∀ s : GPUState,
      getStatusGo env { s with switchGPU := false } l =
        ((getStatusGo env s l).1.map (fun r => { r with gpu_utilization := -1 }),
         { (getStatusGo env s l).2 with switchGPU := false }) := by
  induction l with
  | nil => intro s; simp [getStatusGo]
  | cons i rest ih =>
      intro s
      rcases hr : readDevice env s i with ⟨r, s2⟩
      have hmod := readDevice_switchGPU_off env s i
      rw [hr] at hmod
      simp only at hmod
      rcases hgo : getStatusGo env s2 rest with ⟨rs, s3⟩
      have hih := ih s2
      rw [hgo] at hih
      simp only at hih
      simp [getStatusGo, hmod, hr, hih, hgo]

theorem getStatusGo_switchVRAM_off (env : ReadEnv) (l : List ℕ) :
    ∀ s : GPUState,
      getStatusGo env { s with switchVRAM := false } l =
        ((getStatusGo env s l).1.map
          (fun r => { r with vram_total := -1, vram_used := -1, vram_used_percent := -1 }),
         { (getStatusGo env s l).2 with switchVRAM := false }) := by
  induction l with
  | nil => intro s; simp [getStatusGo]
  | cons i rest ih =>
      intro s
      rcases hr : readDevice env s i with ⟨r, s2⟩
      have hmod := readDevice_switchVRAM_off env s i
      rw [hr] at hmod
      simp only at hmod
      rcases hgo : getStatusGo env s2 rest with ⟨rs, s3⟩
      have hih := ih s2
      rw [hgo] at hih
      simp only at hih
      simp [getStatusGo, hmod, hr, hih, hgo]

theorem getStatusGo_switchTemperature_off (env : ReadEnv) (l : List ℕ) :
    ∀ s : GPUState,
      getStatusGo env { s with switchTemperature := false } l =
        ((getStatusGo env s l).1.map (fun r => { r with gpu_temperature := -1 }),
         { (getStatusGo env s l).2 with switchTemperature := false }) := by
  induction l with
  | nil => intro s; simp [getStatusGo]
  | cons i rest ih =>
      intro s
      rcases hr : readDevice env s i with ⟨r, s2⟩
      have hmod := readDevice_switchTemperature_off env s i
      rw [hr] at hmod
      simp only at hmod
      rcases hgo : getStatusGo env s2 rest with ⟨rs, s3⟩
      have hih := ih s2
      rw [hgo] at hih
      simp only at hih
      simp [getStatusGo, hmod, hr, hih, hgo]

theorem getStatus_switchGPU_off (env : ReadEnv) (s : GPUState) :
    getStatus env { s with switchGPU := false } =
      (⟨(getStatus env s).1.device_type,
        (getStatus env s).1.gpus.map (fun r => { r with gpu_utilization := -1 })⟩,
       { (getStatus env s).2 with switchGPU := false }) := by
  by_cases h1 : s.cudaDevice = "cpu"
  · simp [getStatus, h1]
  · cases h2 : s.anygpuLoaded && s.cuda && s.cudaAvailable
    · simp [getStatus, h1, h2]
    · rcases hgo : getStatusGo env s (List.range s.cudaDevicesFound) with ⟨rs, s3⟩
      have hloop := getStatusGo_switchGPU_off env (List.range s.cudaDevicesFound) s
      rw [hgo] at hloop
      simp only at hloop
      simp [getStatus, h1, h2, hgo, hloop]

theorem getStatus_switchVRAM_off (env : ReadEnv) (s : GPUState) :
    getStatus env { s with switchVRAM := false } =
      (⟨(getStatus env s).1.device_type,
        (getStatus env s).1.gpus.map
          (fun r => { r with vram_total := -1, vram_used := -1, vram_used_percent := -1 })⟩,
       { (getStatus env s).2 with switchVRAM := false }) := by
  by_cases h1 : s.cudaDevice = "cpu"
  · simp [getStatus, h1]
  · cases h2 : s.anygpuLoaded && s.cuda && s.cudaAvailable
    · simp [getStatus, h1, h2]
    · rcases hgo : getStatusGo env s (List.range s.cudaDevicesFound) with ⟨rs, s3⟩
      have hloop := getStatusGo_switchVRAM_off env (List.range s.cudaDevicesFound) s
      rw [hgo] at hloop
      simp only at hloop
      simp [getStatus, h1, h2, hgo, hloop]

theorem getStatus_switchTemperature_off (env : ReadEnv) (s : GPUState) :
    getStatus env { s with switchTemperature := false } =
      (⟨(getStatus env s).1.device_type,
        (getStatus env s).1.gpus.map (fun r => { r with gpu_temperature := -1 })⟩,
       { (getStatus env s).2 with switchTemperature := false }) := by
  by_cases h1 : s.cudaDevice = "cpu"
  · simp [getStatus, h1]
  · cases h2 : s.anygpuLoaded && s.cuda && s.cudaAvailable
    · simp [getStatus, h1, h2]
    · rcases hgo : getStatusGo env s (List.range s.cudaDevicesFound) with ⟨rs, s3⟩
      have hloop := getStatusGo_switchTemperature_off env
        (List.range s.cudaDevicesFound) s
      rw [hgo] at hloop
      simp only at hloop
      simp [getStatus, h1, h2, hgo, hloop]

theorem getStatusIter_util_latch (envs : List ReadEnv) :
    ∀ s : GPUState, s.switchGPU = false →
      ∀ st ∈ (getStatusIter s envs).1, ∀ r ∈ st.gpus, r.gpu_utilization = -1 := by
  induction envs with
  | nil => intro s h st hst; simp [getStatusIter] at hst
  | cons env rest ih =>
      intro s h st hst
      rcases hg : getStatus env s with ⟨st1, s2⟩
      have h1 := getStatus_util_latch env s h
      rw [hg] at h1
      simp only at h1
      rcases hit : getStatusIter s2 rest with ⟨sts, s3⟩
      simp only [getStatusIter, hg, hit] at hst
      rcases List.mem_cons.mp hst with h' | h'
      · subst h'; exact h1.1
      · have := ih s2 h1.2 st
        rw [hit] at this
        exact this h'

theorem getStatusIter_vram_latch (envs : List ReadEnv) :
    ∀ s : GPUState, s.switchVRAM = false →
      ∀ st ∈ (getStatusIter s envs).1, ∀ r ∈ st.gpus,
        r.vram_total = -1 ∧ r.vram_used = -1 ∧ r.vram_used_percent = -1 := by
  induction envs with
  | nil => intro s h st hst; simp [getStatusIter] at hst
  | cons env rest ih =>
      intro s h st hst
      rcases hg : getStatus env s with ⟨st1, s2⟩
      have h1 := getStatus_vram_latch env s h
      rw [hg] at h1
      simp only at h1
      rcases hit : getStatusIter s2 rest with ⟨sts, s3⟩
      simp only [getStatusIter, hg, hit] at hst
      rcases List.mem_cons.mp hst with h' | h'
      · subst h'; exact h1.1
      · have := ih s2 h1.2 st
        rw [hit] at this
        exact this h'

theorem getStatusIter_temp_latch (envs : List ReadEnv) :
    ∀ s : GPUState, s.switchTemperature = false →
      ∀ st ∈ (getStatusIter s envs).1, ∀ r ∈ st.gpus, r.gpu_temperature = -1 := by
  induction envs with
  | nil => intro s h st hst; simp [getStatusIter] at hst
  | cons env rest ih =>
      intro s h st hst
      rcases hg : getStatus env s with ⟨st1, s2⟩
      have h1 := getStatus_temp_latch env s h
      rw [hg] at h1
      simp only at h1
      rcases hit : getStatusIter s2 rest with ⟨sts, s3⟩
      simp only [getStatusIter, hg, hit] at hst
      rcases List.mem_cons.mp hst with h' | h'
      · subst h'; exact h1.1
      · have := ih s2 h1.2 st
        rw [hit] at this
        exact this h'

/-- C6: per-metric auto-disable in `getStatus` — a read that raises yields
the sentinel `-1` for that read and latches the metric kind's global switch
off; with a kind's switch off, every record of every subsequent `getStatus`
call carries `-1` for that kind on all devices and the switch stays off;
and turning one kind's switch off leaves the other two kinds' outputs and
the post-state otherwise unchanged (the `_off` equalities). -/
theorem C6_per_metric_auto_disable :
    (∀ (env : ReadEnv) (s : GPUState) (i : ℕ),
        s.switchGPU = true → s.gpusUtilization.getD i false = true →
        env.utilization i = .error () →
        (readDevice env s i).1.gpu_utilization = -1 ∧
        (readDevice env s i).2.switchGPU = false) ∧
    (∀ (env : ReadEnv) (s : GPUState) (i : ℕ),
        s.switchVRAM = true → s.gpusVRAM.getD i false = true →
        env.memoryInfo i = .error () →
        (readDevice env s i).1.vram_used = -1 ∧
        (readDevice env s i).1.vram_total = -1 ∧
        (readDevice env s i).1.vram_used_percent = -1 ∧
        (readDevice env s i).2.switchVRAM = false) ∧
    (∀ (env : ReadEnv) (s : GPUState) (i : ℕ),
        s.switchTemperature = true → s.gpusTemperature.getD i false = true →
        env.temperature i = .error () →
        (readDevice env s i).1.gpu_temperature = -1 ∧
        (readDevice env s i).2.switchTemperature = false) ∧
    (∀ (env : ReadEnv) (s : GPUState),
        getStatus env { s with switchGPU := false } =
          (⟨(getStatus env s).1.device_type,
            (getStatus env s).1.gpus.map (fun r => { r with gpu_utilization := -1 })⟩,
           { (getStatus env s).2 with switchGPU := false })) ∧
    (∀ (env : ReadEnv) (s : GPUState),
        getStatus env { s with switchVRAM := false } =
          (⟨(getStatus env s).1.device_type,
            (getStatus env s).1.gpus.map
              (fun r => { r with vram_total := -1, vram_used := -1, vram_used_percent := -1 })⟩,
           { (getStatus env s).2 with switchVRAM := false })) ∧
    (∀ (env : ReadEnv) (s : GPUState),
        getStatus env { s with switchTemperature := false } =
          (⟨(getStatus env s).1.device_type,
            (getStatus env s).1.gpus.map (fun r => { r with gpu_temperature := -1 })⟩,
           { (getStatus env s).2 with switchTemperature := false })) ∧
    (∀ (envs : List ReadEnv) (s : GPUState), s.switchGPU = false →
        ∀ st ∈ (getStatusIter s envs).1, ∀ r ∈ st.gpus,
          r.gpu_utilization = -1) ∧
    (∀ (envs : List ReadEnv) (s : GPUState), s.switchVRAM = false →
        ∀ st ∈ (getStatusIter s envs).1, ∀ r ∈ st.gpus,
          r.vram_total = -1 ∧ r.vram_used = -1 ∧ r.vram_used_percent = -1) ∧
    (∀ (envs : List ReadEnv) (s : GPUState), s.switchTemperature = false →
        ∀ st ∈ (getStatusIter s envs).1, ∀ r ∈ st.gpus,
          r.gpu_temperature = -1) := by
  refine ⟨?_, ?_, ?_, getStatus_switchGPU_off, getStatus_switchVRAM_off,
    getStatus_switchTemperature_off, fun envs => getStatusIter_util_latch envs,
    fun envs => getStatusIter_vram_latch envs,
    fun envs => getStatusIter_temp_latch envs⟩
  · intro env s i h1 h2 h3
    have h2' : s.gpusUtilization[i]?.getD false = true := by
      simpa [List.getD] using h2
    have hu : utilRead env s i = (-1, { s with switchGPU := false }) := by
      simp [utilRead, h1, h2', h3]
    rcases hv : vramRead env { s with switchGPU := false } i
      with ⟨⟨used, total, p⟩, s2⟩
    have hs2 : s2.switchGPU = false := by
      have hst := vramRead_state env { s with switchGPU := false } i
      rw [hv] at hst
      simp only at hst
      rcases hst with h' | h' <;> subst h' <;> rfl
    rcases ht : tempRead env s2 i with ⟨t, s3⟩
    have hs3 : s3.switchGPU = false := by
      have hst := tempRead_state env s2 i
      rw [ht] at hst
      simp only at hst
      rcases hst with h' | h' <;> subst h' <;> exact hs2
    constructor
    · simp [readDevice, hu, hv, ht]
    · simp [readDevice, hu, hv, ht, hs3]
  · intro env s i h1 h2 h3
    rcases hu : utilRead env s i with ⟨u, s1⟩
    have hus := utilRead_state env s i
    rw [hu] at hus
    simp only at hus
    have hs1v : s1.switchVRAM = true := by
      rcases hus with h' | h' <;> subst h' <;> exact h1
    have hs1g : s1.gpusVRAM.getD i false = true := by
      rcases hus with h' | h' <;> subst h' <;> exact h2
    have hs1g' : s1.gpusVRAM[i]?.getD false = true := by
      simpa [List.getD] using hs1g
    have hv : vramRead env s1 i =
        ((-1, -1, -1), { s1 with switchVRAM := false }) := by
      simp [vramRead, hs1v, hs1g', h3]
    rcases ht : tempRead env { s1 with switchVRAM := false } i with ⟨t, s3⟩
    have hs3 : s3.switchVRAM = false := by
      have hst := tempRead_state env { s1 with switchVRAM := false } i
      rw [ht] at hst
      simp only at hst
      rcases hst with h' | h' <;> subst h' <;> rfl
    refine ⟨?_, ?_, ?_, ?_⟩ <;> simp [readDevice, hu, hv, ht, hs3]
  · intro env s i h1 h2 h3
    rcases hu : utilRead env s i with ⟨u, s1⟩
    have hus := utilRead_state env s i
    rw [hu] at hus
    simp only at hus
    have hs1t : s1.switchTemperature = true := by
      rcases hus with h' | h' <;> subst h' <;> exact h1
    have hs1g : s1.gpusTemperature.getD i false = true := by
      rcases hus with h' | h' <;> subst h' <;> exact h2
    rcases hv : vramRead env s1 i with ⟨⟨used, total, p⟩, s2⟩
    have hvs := vramRead_state env s1 i
    rw [hv] at hvs
    simp only at hvs
    have hs2t : s2.switchTemperature = true := by
      rcases hvs with h' | h' <;> subst h' <;> exact hs1t
    have hs2g : s2.gpusTemperature[i]?.getD false = true := by
      rcases hvs with h' | h' <;> subst h' <;> simpa [List.getD] using hs1g
    have ht : tempRead env s2 i = (-1, { s2 with switchTemperature := false }) := by
      simp [tempRead, hs2t, hs2g, h3]
    constructor
    · simp [readDevice, hu, hv, ht]
    · simp [readDevice, hu, hv, ht]

/-- Closed instance of `C6_per_metric_auto_disable`: a failing utilization
read on an operational single-GPU state yields the sentinel and latches
`switchGPU` off. -/
theorem C6_per_metric_auto_disable_witness :
    (readDevice exReadEnvUtilFail (freshInit exEnvOk) 0).1.gpu_utilization = -1 ∧
    (readDevice exReadEnvUtilFail (freshInit exEnvOk) 0).2.switchGPU = false :=
  C6_per_metric_auto_disable.1 exReadEnvUtilFail (freshInit exEnvOk) 0
    (by decide) (by decide) rfl

theorem stageRate_none_iff (v : Option JVal) (st : MonState) :
    stageRate v st = none ↔ validRate v = false := by
  cases v with
  | none => simp [stageRate, validRate]
  | some jv =>
      cases jv <;> simp [stageRate, validRate, isNumberJ] <;> split_ifs <;> simp

theorem stageSwitchCPU_none_iff (v : Option JVal) (st : MonState) :
    stageSwitchCPU v st = none ↔ validBoolField v = false := by
  cases v with
  | none => simp [stageSwitchCPU, validBoolField]
  | some jv => cases jv <;> simp [stageSwitchCPU, validBoolField, isBoolJ]

theorem stageSwitchRAM_none_iff (v : Option JVal) (st : MonState) :
    stageSwitchRAM v st = none ↔ validBoolField v = false := by
  cases v with
  | none => simp [stageSwitchRAM, validBoolField]
  | some jv => cases jv <;> simp [stageSwitchRAM, validBoolField, isBoolJ]

theorem stageSwitchTS_none_iff (v : Option JVal) (st : MonState) :
    stageSwitchTS v st = none ↔ validBoolField v = false := by
  cases v with
  | none => simp [stageSwitchTS, validBoolField]
  | some jv => cases jv <;> simp [stageSwitchTS, validBoolField, isBoolJ]

theorem stageSwitchSGM_none_iff (v : Option JVal) (st : MonState) :
    stageSwitchSGM v st = none ↔ validBoolField v = false := by
  cases v with
  | none => simp [stageSwitchSGM, validBoolField]
  | some jv => cases jv <;> simp [stageSwitchSGM, validBoolField, isBoolJ]

theorem pyListSet_isSome (l : List Bool) (i : ℤ) (b : Bool) :
    (pyListSet l i b).isSome = pyIdxOK l.length i := by
  simp only [pyListSet, pyIdxOK]
  split_ifs with h1 h2 <;> simp_all

theorem stageUtil_none_iff (i : ℤ) (v : Option JVal) (a : GpuArrays) :
    stageUtil i v a = none ↔
      validIdxField a.gpusUtilization.length i v = false := by
  cases v with
  | none => simp [stageUtil, validIdxField]
  | some jv =>
      cases jv with
      | jnull => simp [stageUtil, validIdxField]
      | jbool b =>
          have hiso := pyListSet_isSome a.gpusUtilization i (boolValJ (.jbool b))
          rcases hp : pyListSet a.gpusUtilization i (boolValJ (.jbool b)) with _ | l <;>
            rw [hp] at hiso <;>
            simp [stageUtil, validIdxField, isBoolJ, hp, ← hiso]
      | jnum q => simp [stageUtil, validIdxField, isBoolJ]
      | jstr str => simp [stageUtil, validIdxField, isBoolJ]

theorem stageVram_none_iff (i : ℤ) (v : Option JVal) (a : GpuArrays) :
    stageVram i v a = none ↔ validIdxField a.gpusVRAM.length i v = false := by
  cases v with
  | none => simp [stageVram, validIdxField]
  | some jv =>
      cases jv with
      | jnull => simp [stageVram, validIdxField]
      | jbool b =>
          have hiso := pyListSet_isSome a.gpusVRAM i (boolValJ (.jbool b))
          rcases hp : pyListSet a.gpusVRAM i (boolValJ (.jbool b)) with _ | l <;>
            rw [hp] at hiso <;>
            simp [stageVram, validIdxField, isBoolJ, hp, ← hiso]
      | jnum q => simp [stageVram, validIdxField, isBoolJ]
      | jstr str => simp [stageVram, validIdxField, isBoolJ]

theorem stageTemp_none_iff (i : ℤ) (v : Option JVal) (a : GpuArrays) :
    stageTemp i v a = none ↔
      validIdxField a.gpusTemperature.length i v = false := by
  cases v with
  | none => simp [stageTemp, validIdxField]
  | some jv =>
      cases jv with
      | jnull => simp [stageTemp, validIdxField]
      | jbool b =>
          have hiso := pyListSet_isSome a.gpusTemperature i (boolValJ (.jbool b))
          rcases hp : pyListSet a.gpusTemperature i (boolValJ (.jbool b)) with _ | l <;>
            rw [hp] at hiso <;>
            simp [stageTemp, validIdxField, isBoolJ, hp, ← hiso]
      | jnum q => simp [stageTemp, validIdxField, isBoolJ]
      | jstr str => simp [stageTemp, validIdxField, isBoolJ]

theorem stageUtil_some_other (i : ℤ) (v : Option JVal) (a a1 : GpuArrays)
    (h : stageUtil i v a = some a1) :
    a1.gpusVRAM = a.gpusVRAM ∧ a1.gpusTemperature = a.gpusTemperature := by
  cases v with
  | none => simp [stageUtil] at h; subst h; exact ⟨rfl, rfl⟩
  | some jv =>
      cases jv with
      | jnull => simp [stageUtil] at h; subst h; exact ⟨rfl, rfl⟩
      | jbool b =>
          rcases hp : pyListSet a.gpusUtilization i (boolValJ (.jbool b)) with _ | l <;>
            simp [stageUtil, isBoolJ, hp] at h
          subst h
          exact ⟨rfl, rfl⟩
      | jnum q => simp [stageUtil, isBoolJ] at h
      | jstr str => simp [stageUtil, isBoolJ] at h

theorem stageVram_some_other (i : ℤ) (v : Option JVal) (a a1 : GpuArrays)
    (h : stageVram i v a = some a1) :
    a1.gpusUtilization = a.gpusUtilization ∧
    a1.gpusTemperature = a.gpusTemperature := by
  cases v with
  | none => simp [stageVram] at h; subst h; exact ⟨rfl, rfl⟩
  | some jv =>
      cases jv with
      | jnull => simp [stageVram] at h; subst h; exact ⟨rfl, rfl⟩
      | jbool b =>
          rcases hp : pyListSet a.gpusVRAM i (boolValJ (.jbool b)) with _ | l <;>
            simp [stageVram, isBoolJ, hp] at h
          subst h
          exact ⟨rfl, rfl⟩
      | jnum q => simp [stageVram, isBoolJ] at h
      | jstr str => simp [stageVram, isBoolJ] at h

/-- C7, counterexample as stated: a request whose valid `rate` field
precedes a malformed `switchCPU` fails with a 400 yet has already mutated
the rate; and a request using the negative index `-1` (outside the
documented `0..len-1` bounds) is accepted with a 200 and mutates the last
per-device entry. -/
theorem C7_counterexample :
    (newSettings exReqBadCPU exMonState).1 = .err ∧
    (newSettings exReqBadCPU exMonState).2.rate = 5 ∧
    exMonState.rate = 2 ∧
    (gpuIndexPatch exReqNegIdx exArrays2).1 = .ok ∧
    (gpuIndexPatch exReqNegIdx exArrays2).2.gpusUtilization = [true, false] := by
  refine ⟨?_, ?_, rfl, ?_, ?_⟩ <;> decide

/-- C7 amended: each handler validates a field's type (and, for the
per-device PATCH, Python-style index assignability) before applying it, and
responds 200 exactly when every present field is accepted; but fields are
processed in order inside one `try`, so on a 400 the final state consists
of exactly the stages before the first rejected field already applied —
the first malformed field and everything after it are not applied, while
every earlier valid field already is; Python list indexing accepts
negative indices down to `-len`, so such an index mutates rather than
being rejected. -/
theorem C7_amended_setter_validation :
    (∀ (req : SettingsReq) (st : MonState),
      ((newSettings req st).1 = .ok ↔
        (validRate req.rate && validBoolField req.switchCPU &&
         validBoolField req.switchRAM && validBoolField req.switchTransferSpeed &&
         validBoolField req.switchSharedGPUMemory) = true) ∧
      (validRate req.rate = false → newSettings req st = (.err, st)) ∧
      (validRate req.rate = true → validBoolField req.switchCPU = false →
        newSettings req st = (.err, (stageRate req.rate st).getD st)) ∧
      (validRate req.rate = true → validBoolField req.switchCPU = true →
        validBoolField req.switchRAM = false →
        newSettings req st =
          (.err, ((stageRate req.rate st).bind
            (stageSwitchCPU req.switchCPU)).getD st)) ∧
      (validRate req.rate = true → validBoolField req.switchCPU = true →
        validBoolField req.switchRAM = true →
        validBoolField req.switchTransferSpeed = false →
        newSettings req st =
          (.err, (((stageRate req.rate st).bind
            (stageSwitchCPU req.switchCPU)).bind
            (stageSwitchRAM req.switchRAM)).getD st)) ∧
      (validRate req.rate = true → validBoolField req.switchCPU = true →
        validBoolField req.switchRAM = true →
        validBoolField req.switchTransferSpeed = true →
        validBoolField req.switchSharedGPUMemory = false →
        newSettings req st =
          (.err, ((((stageRate req.rate st).bind
            (stageSwitchCPU req.switchCPU)).bind
            (stageSwitchRAM req.switchRAM)).bind
            (stageSwitchTS req.switchTransferSpeed)).getD st)) ∧
      (validRate req.rate = true → validBoolField req.switchCPU = true →
        validBoolField req.switchRAM = true →
        validBoolField req.switchTransferSpeed = true →
        validBoolField req.switchSharedGPUMemory = true →
        newSettings req st =
          (.ok, (((((stageRate req.rate st).bind
            (stageSwitchCPU req.switchCPU)).bind
            (stageSwitchRAM req.switchRAM)).bind
            (stageSwitchTS req.switchTransferSpeed)).bind
            (stageSwitchSGM req.switchSharedGPUMemory)).getD st))) ∧
    (∀ (req : GpuPatchReq) (a : GpuArrays),
      ((gpuIndexPatch req a).1 = .ok ↔
        (validIdxField a.gpusUtilization.length req.index req.utilization &&
         validIdxField a.gpusVRAM.length req.index req.vram &&
         validIdxField a.gpusTemperature.length req.index req.temperature) = true) ∧
      (validIdxField a.gpusUtilization.length req.index req.utilization = false →
        gpuIndexPatch req a = (.err, a)) ∧
      (validIdxField a.gpusUtilization.length req.index req.utilization = true →
        validIdxField a.gpusVRAM.length req.index req.vram = false →
        gpuIndexPatch req a =
          (.err, (stageUtil req.index req.utilization a).getD a)) ∧
      (validIdxField a.gpusUtilization.length req.index req.utilization = true →
        validIdxField a.gpusVRAM.length req.index req.vram = true →
        validIdxField a.gpusTemperature.length req.index req.temperature = false →
        gpuIndexPatch req a =
          (.err, ((stageUtil req.index req.utilization a).bind
            (stageVram req.index req.vram)).getD a)) ∧
      (validIdxField a.gpusUtilization.length req.index req.utilization = true →
        validIdxField a.gpusVRAM.length req.index req.vram = true →
        validIdxField a.gpusTemperature.length req.index req.temperature = true →
        gpuIndexPatch req a =
          (.ok, (((stageUtil req.index req.utilization a).bind
            (stageVram req.index req.vram)).bind
            (stageTemp req.index req.temperature)).getD a))) := by
  constructor
  · intro req st
    cases hv1 : validRate req.rate
    · have h1 : stageRate req.rate st = none := (stageRate_none_iff _ _).mpr hv1
      simp [newSettings, h1, hv1]
    · obtain ⟨st1, h1⟩ : ∃ st1, stageRate req.rate st = some st1 := by
        rcases hsr : stageRate req.rate st with _ | st1
        · exact absurd ((stageRate_none_iff _ _).mp hsr) (by simp [hv1])
        · exact ⟨st1, rfl⟩
      cases hv2 : validBoolField req.switchCPU
      · have h2 : stageSwitchCPU req.switchCPU st1 = none :=
          (stageSwitchCPU_none_iff _ _).mpr hv2
        simp [newSettings, h1, h2, hv1, hv2]
      · obtain ⟨st2, h2⟩ : ∃ st2, stageSwitchCPU req.switchCPU st1 = some st2 := by
          rcases hsr : stageSwitchCPU req.switchCPU st1 with _ | st2
          · exact absurd ((stageSwitchCPU_none_iff _ _).mp hsr) (by simp [hv2])
          · exact ⟨st2, rfl⟩
        cases hv3 : validBoolField req.switchRAM
        · have h3 : stageSwitchRAM req.switchRAM st2 = none :=
            (stageSwitchRAM_none_iff _ _).mpr hv3
          simp [newSettings, h1, h2, h3, hv1, hv2, hv3]
        · obtain ⟨st3, h3⟩ : ∃ st3, stageSwitchRAM req.switchRAM st2 = some st3 := by
            rcases hsr : stageSwitchRAM req.switchRAM st2 with _ | st3
            · exact absurd ((stageSwitchRAM_none_iff _ _).mp hsr) (by simp [hv3])
            · exact ⟨st3, rfl⟩
          cases hv4 : validBoolField req.switchTransferSpeed
          · have h4 : stageSwitchTS req.switchTransferSpeed st3 = none :=
              (stageSwitchTS_none_iff _ _).mpr hv4
            simp [newSettings, h1, h2, h3, h4, hv1, hv2, hv3, hv4]
          · obtain ⟨st4, h4⟩ :
                ∃ st4, stageSwitchTS req.switchTransferSpeed st3 = some st4 := by
              rcases hsr : stageSwitchTS req.switchTransferSpeed st3 with _ | st4
              · exact absurd ((stageSwitchTS_none_iff _ _).mp hsr) (by simp [hv4])
              · exact ⟨st4, rfl⟩
            cases hv5 : validBoolField req.switchSharedGPUMemory
            · have h5 : stageSwitchSGM req.switchSharedGPUMemory st4 = none :=
                (stageSwitchSGM_none_iff _ _).mpr hv5
              simp [newSettings, h1, h2, h3, h4, h5, hv1, hv2, hv3, hv4, hv5]
            · obtain ⟨st5, h5⟩ :
                  ∃ st5, stageSwitchSGM req.switchSharedGPUMemory st4 = some st5 := by
                rcases hsr : stageSwitchSGM req.switchSharedGPUMemory st4 with _ | st5
                · exact absurd ((stageSwitchSGM_none_iff _ _).mp hsr) (by simp [hv5])
                · exact ⟨st5, rfl⟩
              simp [newSettings, h1, h2, h3, h4, h5, hv1, hv2, hv3, hv4, hv5]
  · intro req a
    cases hv1 : validIdxField a.gpusUtilization.length req.index req.utilization
    · have h1 : stageUtil req.index req.utilization a = none :=
        (stageUtil_none_iff _ _ _).mpr hv1
      simp [gpuIndexPatch, h1, hv1]
    · obtain ⟨a1, h1⟩ : ∃ a1, stageUtil req.index req.utilization a = some a1 := by
        rcases hsr : stageUtil req.index req.utilization a with _ | a1
        · exact absurd ((stageUtil_none_iff _ _ _).mp hsr) (by simp [hv1])
        · exact ⟨a1, rfl⟩
      have hoth1 := stageUtil_some_other req.index req.utilization a a1 h1
      cases hv2 : validIdxField a.gpusVRAM.length req.index req.vram
      · have h2 : stageVram req.index req.vram a1 = none := by
          rw [stageVram_none_iff, hoth1.1, hv2]
        simp [gpuIndexPatch, h1, h2, hv1, hv2]
      · obtain ⟨a2, h2⟩ : ∃ a2, stageVram req.index req.vram a1 = some a2 := by
          rcases hsr : stageVram req.index req.vram a1 with _ | a2
          · rw [stageVram_none_iff, hoth1.1] at hsr
            exact absurd hsr (by simp [hv2])
          · exact ⟨a2, rfl⟩
        have hoth2 := stageVram_some_other req.index req.vram a1 a2 h2
        cases hv3 : validIdxField a.gpusTemperature.length req.index req.temperature
        · have h3 : stageTemp req.index req.temperature a2 = none := by
            rw [stageTemp_none_iff, hoth2.2, hoth1.2, hv3]
          simp [gpuIndexPatch, h1, h2, h3, hv1, hv2, hv3]
        · obtain ⟨a3, h3⟩ :
              ∃ a3, stageTemp req.index req.temperature a2 = some a3 := by
            rcases hsr : stageTemp req.index req.temperature a2 with _ | a3
            · rw [stageTemp_none_iff, hoth2.2, hoth1.2] at hsr
              exact absurd hsr (by simp [hv3])
            · exact ⟨a3, rfl⟩
          simp [gpuIndexPatch, h1, h2, h3, hv1, hv2, hv3]

/-- Closed instance of `C7_amended_setter_validation`. -/
theorem C7_amended_setter_validation_witness :
    newSettings exReqBadCPU exMonState =
      (.err, (stageRate exReqBadCPU.rate exMonState).getD exMonState) ∧
    gpuIndexPatch exReqNegIdx exArrays2 =
      (.ok, (((stageUtil exReqNegIdx.index exReqNegIdx.utilization exArrays2).bind
        (stageVram exReqNegIdx.index exReqNegIdx.vram)).bind
        (stageTemp exReqNegIdx.index exReqNegIdx.temperature)).getD exArrays2) :=
  ⟨((C7_amended_setter_validation.1 exReqBadCPU exMonState).2.2.1
      (by decide) (by decide)),
   ((C7_amended_setter_validation.2 exReqNegIdx exArrays2).2.2.2.2
      (by decide) (by decide) (by decide))⟩

end HWMon
